import Mathlib

/-!
Shallow embedding of the pterodactyl admin API wrapper.

The embedding covers the three source files:
* `request.js` : the four shared request helpers (`admin.getRequest`,
  `admin.deleteRequest`, `admin.patchRequest`, `admin.postRequest`);
* the servers method file : the thirteen exported endpoint functions;
* the index file : `cleanHost` and `setApiKey`.

JavaScript dynamic values are modelled by the inductive type `JSVal`.
Each function of the source is modelled as a pure Lean function that is
additionally parameterised by the outcome of its single axios call (the
value `r : AxiosResult`) and returns the ordered list of observable
effects it performs: writes to `process.env`, the HTTP call itself, and
the settle calls (`resolve` and `reject`) made on the returned promise.
A promise settles at the first `resolve` or `reject` call, so the value
a caller observes is `firstSettle` of the trace; later settle calls in
the trace are ignored by the JS runtime but are kept in the trace, which
is what lets the rejected-but-still-calls behaviour be stated.

A `then` or `catch` handler that would throw a TypeError (for example a
property access on `undefined`) produces no settle call at all, which is
modelled by the handler returning `none`.
-/

/-- Model of a JavaScript runtime value.  Numbers are modelled as the
integers that actually occur in this API plus a separate `nan` value. -/
inductive JSVal where
  | undefined
  | null
  | bool (b : Bool)
  | num (n : Int)
  | nan
  | str (s : String)
  | arr (xs : List JSVal)
  | obj (fields : List (String × JSVal))

/-- The JavaScript `typeof` operator. -/
def typeof : JSVal → String
  | .undefined => "undefined"
  | .null => "object"
  | .bool _ => "boolean"
  | .num _ => "number"
  | .nan => "number"
  | .str _ => "string"
  | .arr _ => "object"
  | .obj _ => "object"

/-- JavaScript truthiness, as used by `!x` and by `if (x)`. -/
def jsTruthy : JSVal → Bool
  | .undefined => false
  | .null => false
  | .bool b => b
  | .num n => n != 0
  | .nan => false
  | .str s => !s.isEmpty
  | .arr _ => true
  | .obj _ => true

/-- True exactly on `null` and `undefined`, the values on which a
property access throws a TypeError. -/
def isNullOrUndefined : JSVal → Bool
  | .undefined => true
  | .null => true
  | _ => false

/-- True exactly on `undefined` (the test `x !== undefined`). -/
def isUndefined : JSVal → Bool
  | .undefined => true
  | _ => false

/-- The JavaScript `Array.isArray` test. -/
def jsIsArray : JSVal → Bool
  | .arr _ => true
  | _ => false

/-- JavaScript ToString on primitive values.  Arrays are joined one
level deep; no endpoint of this repository ever concatenates an array
or nested array into a string, so the one-level join is only needed for
totality. -/
def jsPrimToString : JSVal → String
  | .undefined => "undefined"
  | .null => "null"
  | .bool b => if b then "true" else "false"
  | .num n => toString n
  | .nan => "NaN"
  | .str s => s
  | .arr _ => ""
  | .obj _ => "[object Object]"

/-- JavaScript ToString. -/
def jsToString : JSVal → String
  | .arr xs => String.intercalate "," (xs.map jsPrimToString)
  | v => jsPrimToString v

/-- Whitespace for the purposes of JavaScript ToNumber trimming. -/
def isWsChar (c : Char) : Bool :=
  c = ' ' || c = '\t' || c = '\n' || c = '\r'

/-- Trim leading and trailing whitespace from a character list. -/
def trimChars (l : List Char) : List Char :=
  ((l.dropWhile isWsChar).reverse.dropWhile isWsChar).reverse

/-- Accumulate a run of decimal digits; fails on a non-digit. -/
def digitsToNatAux : List Char → Nat → Option Nat
  | [], acc => some acc
  | c :: rest, acc =>
      if c.isDigit then digitsToNatAux rest (acc * 10 + (c.toNat - 48))
      else none

/-- A non-empty all-digit character list as a natural number. -/
def digitsToNat : List Char → Option Nat
  | [] => none
  | l => digitsToNatAux l 0

/-- A signed decimal integer literal as an integer. -/
def parseIntChars : List Char → Option Int
  | [] => none
  | '-' :: rest => (digitsToNat rest).map (fun n => -(n : Int))
  | '+' :: rest => (digitsToNat rest).map (fun n => (n : Int))
  | l => (digitsToNat l).map (fun n => (n : Int))

/-- JavaScript ToNumber, with `none` playing the role of NaN.  String
parsing covers the trimmed decimal integer literals that can reach
`isNaN` in this repository; the arguments the endpoints are actually
called with are numbers, numeric strings or plainly non-numeric
strings. -/
def toNumber : JSVal → Option Int
  | .undefined => none
  | .null => some 0
  | .bool b => some (if b then 1 else 0)
  | .num n => some n
  | .nan => none
  | .str s =>
      match trimChars s.data with
      | [] => some 0
      | l => parseIntChars l
  | .arr xs =>
      match trimChars (String.intercalate "," (xs.map jsPrimToString)).data with
      | [] => some 0
      | l => parseIntChars l
  | .obj _ => none

/-- The global `isNaN` function (ToNumber followed by the NaN test). -/
def jsIsNaN (v : JSVal) : Bool := (toNumber v).isNone

/-- The JavaScript binary `+`: string concatenation when either operand
is a string (or stringifies, as arrays and objects do), otherwise
numeric addition. -/
def jsAdd (a b : JSVal) : JSVal :=
  match a, b with
  | .str _, _ | _, .str _ | .arr _, _ | _, .arr _ | .obj _, _ | _, .obj _ =>
      .str (jsToString a ++ jsToString b)
  | _, _ =>
      match toNumber a, toNumber b with
      | some x, some y => .num (x + y)
      | _, _ => .nan

/-- Strict equality of a value with a number literal, as in the test
`io !== 500`. -/
def jsStrictEqNum (v : JSVal) (n : Int) : Bool :=
  match v with
  | .num m => m == n
  | _ => false

/-- Property lookup that cannot throw: the named own property of an
object, `undefined` in every other case. -/
def jsField (v : JSVal) (f : String) : JSVal :=
  match v with
  | .obj fields => ((fields.find? (fun kv => kv.1 == f)).map (fun kv => kv.2)).getD .undefined
  | _ => .undefined

/-- Property access `v.f`: throws (modelled as `none`) on `null` and
`undefined`, otherwise yields the property value. -/
def jsGetOpt (v : JSVal) (f : String) : Option JSVal :=
  match v with
  | .undefined => none
  | .null => none
  | _ => some (jsField v f)

/-- Elementwise property access over a list, short-circuiting on the
first element that throws. -/
def jsMapGetList (f : String) : List JSVal → Option (List JSVal)
  | [] => some []
  | el :: t =>
      (jsGetOpt el f).bind fun v =>
      (jsMapGetList f t).bind fun vs =>
      some (v :: vs)

/-- The call `v.map((x) => x.f)`: defined only on arrays, and throwing
inside the callback (an element that is `null` or `undefined`)
propagates. -/
def jsMapGet (f : String) (v : JSVal) : Option JSVal :=
  match v with
  | .arr xs => (jsMapGetList f xs).map (fun ys => .arr ys)
  | _ => none

/-- The access `v.length` as used in truthiness tests. -/
def jsLength : JSVal → JSVal
  | .arr xs => .num xs.length
  | .str s => .num s.length
  | .obj fields => ((fields.find? (fun kv => kv.1 == "length")).map (fun kv => kv.2)).getD .undefined
  | _ => .undefined

/-- The call `s.includes(sub)` on strings, for a non-empty literal
substring. -/
def strIncludes (s sub : String) : Bool := (s.splitOn sub).length != 1

/-- JavaScript default-parameter semantics: the default applies exactly
when the supplied argument is `undefined`. -/
def withDefault (v d : JSVal) : JSVal :=
  match v with
  | .undefined => d
  | _ => v

/-- The `filterObject` helper of the servers file: keeps, in order, the
fields whose value satisfies the predicate. -/
def filterObject (fields : List (String × JSVal)) (p : JSVal → Bool) :
    List (String × JSVal) :=
  fields.filter (fun kv => p kv.2)

/-- HTTP method of a request issued through axios. -/
inductive HttpMethod where
  | get
  | post
  | patch
  | delete

/-- The three headers every request of this repository carries. -/
structure Headers where
  authorization : String
  contentType : String
  accept : String

/-- One axios request: method, url, headers, optional body and the
extra axios options that appear in the source (`maxRedirects`,
`followRedirect`, `responseEncoding`). -/
structure HttpRequest where
  method : HttpMethod
  url : JSVal
  headers : Headers
  body : Option JSVal
  maxRedirects : Option Nat
  followRedirect : Option Bool
  responseEncoding : Option String

/-- An axios response: its HTTP status and its `data` field. -/
structure Response where
  status : Nat
  data : JSVal

/-- An axios error: its `message` and its optional `status` field. -/
structure AxiosErr where
  message : String
  status : Option Nat

/-- Outcome of the underlying HTTP call. -/
abbrev AxiosResult := Except AxiosErr Response

/-- A settle call on a promise. -/
inductive Settle where
  | resolved (v : JSVal)
  | rejected (v : JSVal)

/-- One observable effect of a wrapper function. -/
inductive Eff where
  | envSet (name value : String)
  | httpCall (req : HttpRequest)
  | settle (s : Settle)
  | log (msg : String)

/-- The stored credentials, `process.env.ADMIN_HOST` and
`process.env.ADMIN_KEY`. -/
structure Env where
  ADMIN_HOST : String
  ADMIN_KEY : String

/-- The settle calls of a trace, in order. -/
def settlesOf (t : List Eff) : List Settle :=
  t.filterMap (fun e => match e with | .settle s => some s | _ => none)

/-- The value the promise actually settles with: the first settle call
of the trace wins. -/
def firstSettle (t : List Eff) : Option Settle := (settlesOf t).head?

/-- The HTTP requests issued in a trace, in order. -/
def httpCalls (t : List Eff) : List HttpRequest :=
  t.filterMap (fun e => match e with | .httpCall q => some q | _ => none)

/-- The writes to `process.env`, in order. -/
def envWrites (t : List Eff) : List (String × String) :=
  t.filterMap (fun e => match e with | .envSet n v => some (n, v) | _ => none)

/-- The prefix of a trace before its first HTTP call. -/
def effsBeforeHttp : List Eff → List Eff
  | [] => []
  | .httpCall _ :: _ => []
  | e :: t => e :: effsBeforeHttp t

/-- Replay the environment writes of a trace on stored credentials. -/
def runEnv (env : Env) : List Eff → Env
  | [] => env
  | .envSet n v :: t =>
      runEnv (if n == "ADMIN_HOST" then ⟨v, env.ADMIN_KEY⟩
              else if n == "ADMIN_KEY" then ⟨env.ADMIN_HOST, v⟩ else env) t
  | _ :: t => runEnv env t

/-- The `then`/`catch` pair an endpoint attaches to the helper promise:
given the settle of the helper, produce the settle calls of the
endpoint promise (none when the handler throws). -/
def thenCatch (s : Settle) (onRes onErr : JSVal → Option Settle) : List Eff :=
  ((match s with
    | .resolved v => onRes v
    | .rejected e => onErr e).toList).map Eff.settle

namespace admin

/-- `admin.getRequest` of `request.js`: the request it issues and the
settle of the promise it returns, as a function of the axios outcome. -/
def getRequest (env : Env) (path : JSVal) (r : AxiosResult) :
    HttpRequest × Settle :=
  (⟨.get, jsAdd (.str env.ADMIN_HOST) path,
    ⟨"Bearer " ++ env.ADMIN_KEY, "application/json",
     "Application/vnd.pterodactyl.v1+json"⟩,
    none, none, none, none⟩,
   match r with
   | .error e => .rejected (.str e.message)
   | .ok resp =>
     if resp.status = 404 then
       .rejected (.str "404 Not found, check your host is correct")
     else if resp.status = 403 then
       .rejected (.str "403 Forbidden, please check your API key is correct, or that you setup permissions correctly")
     else if resp.status = 500 then
       .rejected (.str "500 Internal Server Error, check your server logs for the error")
     else
       .resolved (.obj [("data", resp.data)]))

/-- `admin.deleteRequest` of `request.js`. -/
def deleteRequest (env : Env) (path : JSVal) (r : AxiosResult) :
    HttpRequest × Settle :=
  (⟨.delete, jsAdd (.str env.ADMIN_HOST) path,
    ⟨"Bearer " ++ env.ADMIN_KEY, "application/json",
     "Application/vnd.pterodactyl.v1+json"⟩,
    none, none, none, none⟩,
   match r with
   | .error e => .rejected (.str e.message)
   | .ok resp =>
     if resp.status = 404 then
       .rejected (.str "404 Not found, check your host is correct")
     else if resp.status = 403 then
       .rejected (.str "403 Forbidden, please check your API key is correct, or that you setup permissions correctly")
     else if resp.status = 500 then
       .rejected (.str "500 Internal Server Error, check your server logs for the error")
     else
       .resolved (.obj [("data", resp.data)]))

/-- `admin.patchRequest` of `request.js`. -/
def patchRequest (env : Env) (path data : JSVal) (r : AxiosResult) :
    HttpRequest × Settle :=
  (⟨.patch, jsAdd (.str env.ADMIN_HOST) path,
    ⟨"Bearer " ++ env.ADMIN_KEY, "application/json",
     "Application/vnd.pterodactyl.v1+json"⟩,
    some data, none, none, none⟩,
   match r with
   | .error e => .rejected (.str e.message)
   | .ok resp =>
     if resp.status = 404 then
       .rejected (.str "404 Not found, check your host is correct")
     else if resp.status = 403 then
       .rejected (.str "403 Forbidden, please check your API key is correct, or that you setup permissions correctly")
     else if resp.status = 500 then
       .rejected (.str "500 Internal Server Error, check your server logs for the error")
     else
       .resolved (.obj [("data", resp.data)]))

/-- `admin.postRequest` of `request.js`, the one helper that also sets
`followRedirect` and `maxRedirects: 3`.  Callers that pass no data get
the source default for `data`, the empty object. -/
def postRequest (env : Env) (path data : JSVal) (r : AxiosResult) :
    HttpRequest × Settle :=
  (⟨.post, jsAdd (.str env.ADMIN_HOST) path,
    ⟨"Bearer " ++ env.ADMIN_KEY, "application/json",
     "Application/vnd.pterodactyl.v1+json"⟩,
    some data, some 3, some true, none⟩,
   match r with
   | .error e => .rejected (.str e.message)
   | .ok resp =>
     if resp.status = 404 then
       .rejected (.str "404 Not found, check your host is correct")
     else if resp.status = 403 then
       .rejected (.str "403 Forbidden, please check your API key is correct, or that you setup permissions correctly")
     else if resp.status = 500 then
       .rejected (.str "500 Internal Server Error, check your server logs for the error")
     else
       .resolved (.obj [("data", resp.data)]))

end admin

/-- A request is issued through the shared request helper when it is the
request component of one of the four helpers at some credentials, path
and payload. -/
def isHelperCall (q : HttpRequest) : Prop :=
  (∃ env path r, q = (admin.getRequest env path r).1) ∨
  (∃ env path r, q = (admin.deleteRequest env path r).1) ∨
  (∃ env path data r, q = (admin.patchRequest env path data r).1) ∨
  (∃ env path data r, q = (admin.postRequest env path data r).1)

/-- Removal of one final slash character from a character list, the
effect of `host.replace(/\/$/, '')`. -/
def stripTrailingSlash : List Char → List Char
  | [] => []
  | [c] => if c = '/' then [] else [c]
  | c :: rest => c :: stripTrailingSlash rest

/-- `cleanHost` of the index file: removes a trailing slash from the
host URL if one is present. -/
def cleanHost (host : String) : String := ⟨stripTrailingSlash host.data⟩

/-- The test `res === 404` in the then-handler of `setApiKey`: `res` is
the whole axios response object while `404` is a number, so the strict
comparison is between values of different types and is always false. -/
def responseStrictEq404 (_ : Response) : Bool := false

/-- `setApiKey` of the index file: stores the cleaned host and the key
in `process.env`, probes `GET host + "/api/application/users"` with the
original host string, and always resolves. -/
def setApiKey (host key : String) (r : AxiosResult) : List Eff :=
  Eff.envSet "ADMIN_HOST" (cleanHost host) ::
  Eff.envSet "ADMIN_KEY" key ::
  Eff.httpCall
    ⟨.get, .str (host ++ "/api/application/users"),
     ⟨"Bearer " ++ key, "application/json",
      "Application/vnd.pterodactyl.v1+json"⟩,
     none, some 5, none, some "utf8"⟩ ::
  [Eff.settle
    (match r with
     | .ok res =>
       if responseStrictEq404 res then
         .resolved (.obj [("loggedIn", .bool false),
           ("message", .str "404 Not found, please check you have provided a valid host.")])
       else
         .resolved (.obj [("loggedIn", .bool true),
           ("message", .str "Successfully authenticated")])
     | .error err =>
       if err.status = some 403 then
         .resolved (.obj [("loggedIn", .bool false),
           ("message", .str "403 Forbidden, please check your API key is valid")])
       else
         .resolved (.obj [("loggedIn", .bool false),
           ("message", .str err.message)]))]

/-- `getAllServers` of the servers file. -/
def getAllServers (env : Env) (r : AxiosResult) : List Eff :=
  let hr := admin.getRequest env (.str "/api/application/servers") r
  Eff.httpCall hr.1 ::
  thenCatch hr.2
    (fun v =>
      (jsGetOpt v "data").bind fun d =>
      (jsGetOpt d "data").bind fun dd =>
      (jsMapGet "attributes" dd).bind fun servers =>
      (jsGetOpt d "meta").bind fun meta =>
      (jsGetOpt meta "pagination").bind fun pagination =>
      some (.resolved (.obj [("servers", servers), ("pagination", pagination)])))
    (fun e => some (.rejected e))

/-- `getServerInformation` of the servers file.  The path argument of
the GET is the verbatim translation of the source expression, in which
the binary `+` binds tighter than the conditional operator. -/
def getServerInformation (env : Env) (r : AxiosResult)
    (id external : JSVal) : List Eff :=
  let path := if jsTruthy (jsAdd (.str "/api/application/servers/") external)
              then jsAdd (.str "external/") id
              else id
  let hr := admin.getRequest env path r
  Eff.httpCall hr.1 ::
  thenCatch hr.2
    (fun v =>
      (jsGetOpt v "data").bind fun d =>
      (jsGetOpt d "attributes").bind fun attrs =>
      some (.resolved attrs))
    (fun e => some (.rejected e))

/-- `getAllDatabases` of the servers file. -/
def getAllDatabases (env : Env) (r : AxiosResult) (internal_id : JSVal) :
    List Eff :=
  (if jsIsNaN internal_id then
     [Eff.settle (.rejected (.str "Internal ID must be a number"))]
   else []) ++
  (let hr := admin.getRequest env
      (jsAdd (jsAdd (.str "/api/application/servers/") internal_id)
        (.str "/databases")) r
   Eff.httpCall hr.1 ::
   thenCatch hr.2
     (fun v =>
       (jsGetOpt v "data").bind fun d =>
       (jsGetOpt d "data").bind fun dd =>
       (jsMapGet "attributes" dd).bind fun dbs =>
       some (.resolved (.obj [("databases", dbs)])))
     (fun e => some (.rejected e)))

/-- `getDatabase` of the servers file. -/
def getDatabase (env : Env) (r : AxiosResult)
    (internal_id database_id : JSVal) : List Eff :=
  (if jsIsNaN internal_id then
     [Eff.settle (.rejected (.str "Internal ID must be a number"))]
   else []) ++
  (if jsIsNaN database_id then
     [Eff.settle (.rejected (.str "Database ID must be a number"))]
   else []) ++
  (let hr := admin.getRequest env
      (jsAdd (jsAdd (jsAdd (.str "/api/application/servers/") internal_id)
        (.str "/databases/")) database_id) r
   Eff.httpCall hr.1 ::
   thenCatch hr.2
     (fun v =>
       (jsGetOpt v "data").bind fun d =>
       (jsGetOpt d "attributes").bind fun attrs =>
       some (.resolved attrs))
     (fun e => some (.rejected e)))

/-- `createDatabase` of the servers file. -/
def createDatabase (env : Env) (r : AxiosResult)
    (internal_id database host remote : JSVal) : List Eff :=
  (if jsIsNaN internal_id then
     [Eff.settle (.rejected (.str "Internal ID must be a number"))]
   else []) ++
  (if !jsTruthy database || typeof database != "string" then
     [Eff.settle (.rejected (.str "Database name must be a string"))]
   else []) ++
  (if !jsTruthy host || typeof host != "number" then
     [Eff.settle (.rejected (.str "Database host must be a integer"))]
   else []) ++
  (if !jsTruthy remote || typeof remote != "string" then
     [Eff.settle (.rejected (.str "Database remote connection rule must be a string"))]
   else []) ++
  (let hr := admin.postRequest env
      (jsAdd (jsAdd (.str "/api/application/servers/") internal_id)
        (.str "/databases"))
      (.obj [("database", database), ("remote", remote), ("host", host)]) r
   Eff.httpCall hr.1 ::
   thenCatch hr.2
     (fun v =>
       (jsGetOpt v "data").bind fun d =>
       (jsGetOpt d "attributes").bind fun attrs =>
       some (.resolved attrs))
     (fun e =>
       match e with
       | .str s =>
         if strIncludes s "403" then
           some (.rejected (.str "Request failed with status code 403\nPossible reasons: invalid API key, reached limit of databases for that server, not your server"))
         else
           some (.rejected (.str s))
       | _ => none))

/-- The `deploy` default of `createServer`. -/
def deployDefault : JSVal :=
  .obj [("locations", .arr [.num 1]), ("dedicated_ip", .bool false),
        ("port_range", .arr [])]

/-- `createServer` of the servers file.  The source declares the last
nine parameters with defaults; a JavaScript default fires exactly when
the argument is `undefined`, which the `withDefault` prelude mirrors. -/
def createServer (env : Env) (r : AxiosResult)
    (name description userID eggID startup dockerImage allocationID
     startOnComplete environment memory disk cpu swap io
     additionalAllocations databases allocations deploy skipScripts
     oomDisabled : JSVal) : List Eff :=
  let cpu := withDefault cpu (.num 0)
  let swap := withDefault swap (.num (-1))
  let io := withDefault io (.num 500)
  let additionalAllocations := withDefault additionalAllocations (.arr [])
  let databases := withDefault databases (.num 0)
  let allocations := withDefault allocations (.num 0)
  let deploy := withDefault deploy deployDefault
  let skipScripts := withDefault skipScripts (.bool false)
  let oomDisabled := withDefault oomDisabled (.bool true)
  (if typeof name != "string" then
     [Eff.settle (.rejected (.str "Error: Server name must be a string"))]
   else []) ++
  (if typeof userID != "number" then
     [Eff.settle (.rejected (.str "Error: User ID must be a number"))]
   else []) ++
  (if typeof eggID != "number" then
     [Eff.settle (.rejected (.str "Error: Egg ID must be a number"))]
   else []) ++
  (if typeof startup != "string" then
     [Eff.settle (.rejected (.str "Error: Startup command must be a string"))]
   else []) ++
  (if typeof memory != "number" then
     [Eff.settle (.rejected (.str "Error: Memory allocated must be a number"))]
   else []) ++
  (if typeof disk != "number" then
     [Eff.settle (.rejected (.str "Error: Disk space must be a number"))]
   else []) ++
  (if typeof dockerImage != "string" then
     [Eff.settle (.rejected (.str "Error: Docker image must be a string"))]
   else []) ++
  (if typeof allocationID != "number" then
     [Eff.settle (.rejected (.str "Error: Allocation ID must be a number"))]
   else []) ++
  (if typeof startOnComplete != "boolean" then
     [Eff.settle (.rejected (.str "Error: Start on complete setting must be a boolean"))]
   else []) ++
  (if !jsIsArray additionalAllocations then
     [Eff.settle (.rejected (.str "Error: Additional allocations must be an array"))]
   else []) ++
  (if typeof cpu != "number" then
     [Eff.settle (.rejected (.str "Error: CPU limit must be a number"))]
   else []) ++
  (if typeof swap != "number" then
     [Eff.settle (.rejected (.str "Error: Swap space must be a number"))]
   else []) ++
  (if typeof io != "number" then
     [Eff.settle (.rejected (.str "Error: Block IO proportion must be a number"))]
   else if !jsStrictEqNum io 500 then
     [Eff.log "Block IO proportion is not set to 500, I sure hope you know what you are doing"]
   else []) ++
  (if typeof environment != "object" then
     [Eff.settle (.rejected (.str "Error: Environment variables must be in an Object"))]
   else []) ++
  (if typeof databases != "number" then
     [Eff.settle (.rejected (.str "Error: Database allocations must be a number"))]
   else []) ++
  (if typeof deploy != "object" then
     [Eff.settle (.rejected (.str "Error: Deployment settings must be in an Object"))]
   else []) ++
  (if typeof skipScripts != "boolean" then
     [Eff.settle (.rejected (.str "Error: Skip scripts setting must be a boolean"))]
   else []) ++
  (if typeof oomDisabled != "boolean" then
     [Eff.settle (.rejected (.str "Error: OOM Killer setting must be a boolean"))]
   else []) ++
  (let data : JSVal :=
     .obj [("name", name), ("description", description),
           ("startup", startup), ("environment", environment),
           ("deploy", deploy), ("start_on_completion", startOnComplete),
           ("user", userID), ("egg", eggID),
           ("limits", .obj [("memory", memory), ("swap", swap),
             ("disk", disk), ("io", io), ("cpu", cpu)]),
           ("feature_limits", .obj [("databases", databases),
             ("allocations", allocations)]),
           ("docker_image", dockerImage),
           ("allocation", .obj [("default", allocationID),
             ("additional", additionalAllocations)]),
           ("skip_scripts", skipScripts), ("oom_disabled", oomDisabled)]
   let hr := admin.postRequest env (.str "/api/application/servers") data r
   Eff.httpCall hr.1 ::
   thenCatch hr.2
     (fun v =>
       (jsGetOpt v "data").bind fun d =>
       (jsGetOpt d "attributes").bind fun attrs =>
       some (.resolved (.obj [("server", attrs)])))
     (fun e => some (.rejected e)))

/-- `suspendServer` of the servers file. -/
def suspendServer (env : Env) (r : AxiosResult) (internal_id : JSVal) :
    List Eff :=
  (if jsIsNaN internal_id then
     [Eff.settle (.rejected (.str "Internal ID must be a number"))]
   else []) ++
  (let hr := admin.postRequest env
      (jsAdd (jsAdd (.str "/api/application/servers/") internal_id)
        (.str "/suspend")) (.obj []) r
   Eff.httpCall hr.1 ::
   thenCatch hr.2
     (fun _ => some (.resolved (.str "Successfully suspended the server")))
     (fun e => some (.rejected e)))

/-- `unsuspendServer` of the servers file. -/
def unsuspendServer (env : Env) (r : AxiosResult) (internal_id : JSVal) :
    List Eff :=
  (if jsIsNaN internal_id then
     [Eff.settle (.rejected (.str "Internal ID must be a number"))]
   else []) ++
  (let hr := admin.postRequest env
      (jsAdd (jsAdd (.str "/api/application/servers/") internal_id)
        (.str "/unsuspend")) (.obj []) r
   Eff.httpCall hr.1 ::
   thenCatch hr.2
     (fun _ => some (.resolved (.str "Successfully unsuspended the server")))
     (fun e => some (.rejected e)))

/-- `reinstallServer` of the servers file. -/
def reinstallServer (env : Env) (r : AxiosResult) (internal_id : JSVal) :
    List Eff :=
  (if jsIsNaN internal_id then
     [Eff.settle (.rejected (.str "Internal ID must be a number"))]
   else []) ++
  (let hr := admin.postRequest env
      (jsAdd (jsAdd (.str "/api/application/servers/") internal_id)
        (.str "/reinstall")) (.obj []) r
   Eff.httpCall hr.1 ::
   thenCatch hr.2
     (fun _ => some (.resolved (.str "Successfully started to reinstall the server")))
     (fun e => some (.rejected e)))

/-- `rebuildServer` of the servers file. -/
def rebuildServer (env : Env) (r : AxiosResult) (internal_id : JSVal) :
    List Eff :=
  (if jsIsNaN internal_id then
     [Eff.settle (.rejected (.str "Internal ID must be a number"))]
   else []) ++
  (let hr := admin.postRequest env
      (jsAdd (jsAdd (.str "/api/application/servers/") internal_id)
        (.str "/rebuild")) (.obj []) r
   Eff.httpCall hr.1 ::
   thenCatch hr.2
     (fun _ => some (.resolved (.str "Successfully started to rebuild the server")))
     (fun e => some (.rejected e)))

/-- `deleteServer` of the servers file. -/
def deleteServer (env : Env) (r : AxiosResult) (internal_id : JSVal) :
    List Eff :=
  (if jsIsNaN internal_id then
     [Eff.settle (.rejected (.str "Internal ID must be a number"))]
   else []) ++
  (let hr := admin.deleteRequest env
      (jsAdd (.str "/api/application/servers/") internal_id) r
   Eff.httpCall hr.1 ::
   thenCatch hr.2
     (fun _ => some (.resolved (.str "Successfully deleted the server")))
     (fun e => some (.rejected e)))

/-- `updateServerDetails` of the servers file. -/
def updateServerDetails (env : Env) (r : AxiosResult)
    (internal_id name user external_id description : JSVal) : List Eff :=
  (if jsIsNaN internal_id then
     [Eff.settle (.rejected (.str "Internal ID must be a number"))]
   else []) ++
  (if !jsTruthy name || typeof name != "string" then
     [Eff.settle (.rejected (.str "You must supply a valid name"))]
   else []) ++
  (if !jsTruthy user || typeof user != "number" then
     [Eff.settle (.rejected (.str "You must supply a valid user ID"))]
   else []) ++
  (let data : JSVal :=
     .obj ([("name", name), ("user", user)] ++
       (if jsTruthy external_id then [("external_id", external_id)] else []) ++
       (if jsTruthy description && typeof description == "string" then
          [("description", description)]
        else []))
   let hr := admin.patchRequest env
      (jsAdd (jsAdd (.str "/api/application/servers/") internal_id)
        (.str "/details")) data r
   Eff.httpCall hr.1 ::
   thenCatch hr.2
     (fun v =>
       (jsGetOpt v "data").bind fun d =>
       (jsGetOpt d "attributes").bind fun attrs =>
       some (.resolved (.obj [("server", attrs)])))
     (fun e => some (.rejected e)))

/-- `updateServerBuildConfiguration` of the servers file. -/
def updateServerBuildConfiguration (env : Env) (r : AxiosResult)
    (internal_id allocation_id database_limit allocation_limit memory disk
     cpu swap io add_allocations remove_allocations oom_disabled : JSVal) :
    List Eff :=
  (if jsIsNaN internal_id then
     [Eff.settle (.rejected (.str "Internal ID must be a number"))]
   else []) ++
  (if !jsTruthy allocation_id then
     [Eff.settle (.rejected (.str "You must supply an allocation ID"))]
   else []) ++
  (let featureLimits : List JSVal :=
     (if jsTruthy database_limit && typeof database_limit == "number" then
        [database_limit]
      else []) ++
     (if jsTruthy allocation_limit && typeof allocation_limit == "number" then
        [allocation_limit]
      else [])
   let limits := filterObject
     [("memory", memory), ("disk", disk), ("cpu", cpu), ("swap", swap),
      ("io", io)] (fun v => typeof v == "number")
   let data : JSVal :=
     .obj ([("allocation_id", allocation_id),
            ("feature_limits", .arr featureLimits)] ++
       (if jsTruthy memory || jsTruthy disk || jsTruthy cpu ||
           jsTruthy swap || jsTruthy io then
          [("limits", .obj limits)]
        else []) ++
       (if jsTruthy add_allocations && jsTruthy (jsLength add_allocations) then
          [("add_allocations", add_allocations)]
        else []) ++
       (if jsTruthy remove_allocations &&
           jsTruthy (jsLength remove_allocations) then
          [("remove_allocations", remove_allocations)]
        else []) ++
       (if !isUndefined oom_disabled && typeof oom_disabled == "boolean" then
          [("oom_disabled", oom_disabled)]
        else []))
   let hr := admin.patchRequest env
      (jsAdd (jsAdd (.str "/api/application/servers/") internal_id)
        (.str "/build")) data r
   Eff.httpCall hr.1 ::
   thenCatch hr.2
     (fun v =>
       (jsGetOpt v "data").bind fun d =>
       (jsGetOpt d "attributes").bind fun attrs =>
       some (.resolved (.obj [("server", attrs)])))
     (fun e => some (.rejected e)))

/-- The validation checks of `getAllDatabases`, in source order, as the
list of messages of the failing checks. -/
def getAllDatabases_failMsgs (internal_id : JSVal) : List String :=
  if jsIsNaN internal_id then ["Internal ID must be a number"] else []

/-- The validation checks of `getDatabase`, in source order. -/
def getDatabase_failMsgs (internal_id database_id : JSVal) : List String :=
  (if jsIsNaN internal_id then ["Internal ID must be a number"] else []) ++
  (if jsIsNaN database_id then ["Database ID must be a number"] else [])

/-- The validation checks of `createDatabase`, in source order. -/
def createDatabase_failMsgs (internal_id database host remote : JSVal) :
    List String :=
  (if jsIsNaN internal_id then ["Internal ID must be a number"] else []) ++
  (if !jsTruthy database || typeof database != "string" then
     ["Database name must be a string"] else []) ++
  (if !jsTruthy host || typeof host != "number" then
     ["Database host must be a integer"] else []) ++
  (if !jsTruthy remote || typeof remote != "string" then
     ["Database remote connection rule must be a string"] else [])

/-- The validation checks of `createServer`, in source order, applied
after the defaulting of the nine optional parameters. -/
def createServer_failMsgs
    (name userID eggID startup dockerImage allocationID startOnComplete
     environment memory disk cpu swap io additionalAllocations databases
     deploy skipScripts oomDisabled : JSVal) : List String :=
  let cpu := withDefault cpu (.num 0)
  let swap := withDefault swap (.num (-1))
  let io := withDefault io (.num 500)
  let additionalAllocations := withDefault additionalAllocations (.arr [])
  let databases := withDefault databases (.num 0)
  let deploy := withDefault deploy deployDefault
  let skipScripts := withDefault skipScripts (.bool false)
  let oomDisabled := withDefault oomDisabled (.bool true)
  (if typeof name != "string" then ["Error: Server name must be a string"] else []) ++
  (if typeof userID != "number" then ["Error: User ID must be a number"] else []) ++
  (if typeof eggID != "number" then ["Error: Egg ID must be a number"] else []) ++
  (if typeof startup != "string" then ["Error: Startup command must be a string"] else []) ++
  (if typeof memory != "number" then ["Error: Memory allocated must be a number"] else []) ++
  (if typeof disk != "number" then ["Error: Disk space must be a number"] else []) ++
  (if typeof dockerImage != "string" then ["Error: Docker image must be a string"] else []) ++
  (if typeof allocationID != "number" then ["Error: Allocation ID must be a number"] else []) ++
  (if typeof startOnComplete != "boolean" then ["Error: Start on complete setting must be a boolean"] else []) ++
  (if !jsIsArray additionalAllocations then ["Error: Additional allocations must be an array"] else []) ++
  (if typeof cpu != "number" then ["Error: CPU limit must be a number"] else []) ++
  (if typeof swap != "number" then ["Error: Swap space must be a number"] else []) ++
  (if typeof io != "number" then ["Error: Block IO proportion must be a number"] else []) ++
  (if typeof environment != "object" then ["Error: Environment variables must be in an Object"] else []) ++
  (if typeof databases != "number" then ["Error: Database allocations must be a number"] else []) ++
  (if typeof deploy != "object" then ["Error: Deployment settings must be in an Object"] else []) ++
  (if typeof skipScripts != "boolean" then ["Error: Skip scripts setting must be a boolean"] else []) ++
  (if typeof oomDisabled != "boolean" then ["Error: OOM Killer setting must be a boolean"] else [])

/-- The validation check of `suspendServer`. -/
def suspendServer_failMsgs (internal_id : JSVal) : List String :=
  if jsIsNaN internal_id then ["Internal ID must be a number"] else []

/-- The validation check of `unsuspendServer`. -/
def unsuspendServer_failMsgs (internal_id : JSVal) : List String :=
  if jsIsNaN internal_id then ["Internal ID must be a number"] else []

/-- The validation check of `reinstallServer`. -/
def reinstallServer_failMsgs (internal_id : JSVal) : List String :=
  if jsIsNaN internal_id then ["Internal ID must be a number"] else []

/-- The validation check of `rebuildServer`. -/
def rebuildServer_failMsgs (internal_id : JSVal) : List String :=
  if jsIsNaN internal_id then ["Internal ID must be a number"] else []

/-- The validation check of `deleteServer`. -/
def deleteServer_failMsgs (internal_id : JSVal) : List String :=
  if jsIsNaN internal_id then ["Internal ID must be a number"] else []

/-- The validation checks of `updateServerDetails`, in source order. -/
def updateServerDetails_failMsgs (internal_id name user : JSVal) :
    List String :=
  (if jsIsNaN internal_id then ["Internal ID must be a number"] else []) ++
  (if !jsTruthy name || typeof name != "string" then
     ["You must supply a valid name"] else []) ++
  (if !jsTruthy user || typeof user != "number" then
     ["You must supply a valid user ID"] else [])

/-- The validation checks of `updateServerBuildConfiguration`, in source
order. -/
def updateServerBuildConfiguration_failMsgs
    (internal_id allocation_id : JSVal) : List String :=
  (if jsIsNaN internal_id then ["Internal ID must be a number"] else []) ++
  (if !jsTruthy allocation_id then ["You must supply an allocation ID"] else [])

/-! Trace computation lemmas. -/

@[simp] theorem settlesOf_nil : settlesOf [] = [] := rfl

@[simp] theorem settlesOf_cons_settle (s : Settle) (t : List Eff) :
    settlesOf (Eff.settle s :: t) = s :: settlesOf t := rfl

@[simp] theorem settlesOf_cons_httpCall (q : HttpRequest) (t : List Eff) :
    settlesOf (Eff.httpCall q :: t) = settlesOf t := rfl

@[simp] theorem settlesOf_cons_envSet (n v : String) (t : List Eff) :
    settlesOf (Eff.envSet n v :: t) = settlesOf t := rfl

@[simp] theorem settlesOf_cons_log (m : String) (t : List Eff) :
    settlesOf (Eff.log m :: t) = settlesOf t := rfl

@[simp] theorem settlesOf_append (a b : List Eff) :
    settlesOf (a ++ b) = settlesOf a ++ settlesOf b :=
  List.filterMap_append a b _

@[simp] theorem settlesOf_ite (c : Prop) [Decidable c] (a b : List Eff) :
    settlesOf (if c then a else b) = if c then settlesOf a else settlesOf b := by
  split <;> rfl

@[simp] theorem httpCalls_nil : httpCalls [] = [] := rfl

@[simp] theorem httpCalls_cons_settle (s : Settle) (t : List Eff) :
    httpCalls (Eff.settle s :: t) = httpCalls t := rfl

@[simp] theorem httpCalls_cons_httpCall (q : HttpRequest) (t : List Eff) :
    httpCalls (Eff.httpCall q :: t) = q :: httpCalls t := rfl

@[simp] theorem httpCalls_cons_envSet (n v : String) (t : List Eff) :
    httpCalls (Eff.envSet n v :: t) = httpCalls t := rfl

@[simp] theorem httpCalls_cons_log (m : String) (t : List Eff) :
    httpCalls (Eff.log m :: t) = httpCalls t := rfl

@[simp] theorem httpCalls_append (a b : List Eff) :
    httpCalls (a ++ b) = httpCalls a ++ httpCalls b :=
  List.filterMap_append a b _

@[simp] theorem httpCalls_ite (c : Prop) [Decidable c] (a b : List Eff) :
    httpCalls (if c then a else b) = if c then httpCalls a else httpCalls b := by
  split <;> rfl

@[simp] theorem envWrites_nil : envWrites [] = [] := rfl

@[simp] theorem envWrites_cons_settle (s : Settle) (t : List Eff) :
    envWrites (Eff.settle s :: t) = envWrites t := rfl

@[simp] theorem envWrites_cons_httpCall (q : HttpRequest) (t : List Eff) :
    envWrites (Eff.httpCall q :: t) = envWrites t := rfl

@[simp] theorem envWrites_cons_envSet (n v : String) (t : List Eff) :
    envWrites (Eff.envSet n v :: t) = (n, v) :: envWrites t := rfl

@[simp] theorem envWrites_cons_log (m : String) (t : List Eff) :
    envWrites (Eff.log m :: t) = envWrites t := rfl

@[simp] theorem envWrites_append (a b : List Eff) :
    envWrites (a ++ b) = envWrites a ++ envWrites b :=
  List.filterMap_append a b _

@[simp] theorem envWrites_ite (c : Prop) [Decidable c] (a b : List Eff) :
    envWrites (if c then a else b) = if c then envWrites a else envWrites b := by
  split <;> rfl

@[simp] theorem settlesOf_thenCatch (s : Settle)
    (onRes onErr : JSVal → Option Settle) :
    settlesOf (thenCatch s onRes onErr) =
      (match s with
       | .resolved v => onRes v
       | .rejected e => onErr e).toList := by
  cases s with
  | resolved v => cases h : onRes v <;> simp [thenCatch, h]
  | rejected e => cases h : onErr e <;> simp [thenCatch, h]

@[simp] theorem httpCalls_thenCatch (s : Settle)
    (onRes onErr : JSVal → Option Settle) :
    httpCalls (thenCatch s onRes onErr) = [] := by
  cases s with
  | resolved v => cases h : onRes v <;> simp [thenCatch, h]
  | rejected e => cases h : onErr e <;> simp [thenCatch, h]

@[simp] theorem envWrites_thenCatch (s : Settle)
    (onRes onErr : JSVal → Option Settle) :
    envWrites (thenCatch s onRes onErr) = [] := by
  cases s with
  | resolved v => cases h : onRes v <;> simp [thenCatch, h]
  | rejected e => cases h : onErr e <;> simp [thenCatch, h]

@[simp] theorem effsBeforeHttp_nil : effsBeforeHttp [] = [] := rfl

@[simp] theorem effsBeforeHttp_cons_settle (s : Settle) (t : List Eff) :
    effsBeforeHttp (Eff.settle s :: t) = Eff.settle s :: effsBeforeHttp t := rfl

@[simp] theorem effsBeforeHttp_cons_httpCall (q : HttpRequest) (t : List Eff) :
    effsBeforeHttp (Eff.httpCall q :: t) = [] := rfl

@[simp] theorem effsBeforeHttp_cons_envSet (n v : String) (t : List Eff) :
    effsBeforeHttp (Eff.envSet n v :: t) = Eff.envSet n v :: effsBeforeHttp t := rfl

@[simp] theorem effsBeforeHttp_cons_log (m : String) (t : List Eff) :
    effsBeforeHttp (Eff.log m :: t) = Eff.log m :: effsBeforeHttp t := rfl

@[simp] theorem runEnv_nil (env : Env) : runEnv env [] = env := rfl

@[simp] theorem runEnv_cons_settle (env : Env) (s : Settle) (t : List Eff) :
    runEnv env (Eff.settle s :: t) = runEnv env t := rfl

@[simp] theorem runEnv_cons_httpCall (env : Env) (q : HttpRequest)
    (t : List Eff) : runEnv env (Eff.httpCall q :: t) = runEnv env t := rfl

@[simp] theorem runEnv_cons_log (env : Env) (m : String) (t : List Eff) :
    runEnv env (Eff.log m :: t) = runEnv env t := rfl

@[simp] theorem runEnv_append (env : Env) (a b : List Eff) :
    runEnv env (a ++ b) = runEnv (runEnv env a) b := by
  induction a generalizing env with
  | nil => rfl
  | cons e t ih =>
    cases e with
    | envSet n v => simp only [List.cons_append, runEnv]; exact ih _
    | httpCall q => simp only [List.cons_append, runEnv]; exact ih env
    | settle s => simp only [List.cons_append, runEnv]; exact ih env
    | log m => simp only [List.cons_append, runEnv]; exact ih env

@[simp] theorem runEnv_ite (env : Env) (c : Prop) [Decidable c]
    (a b : List Eff) :
    runEnv env (if c then a else b) =
      if c then runEnv env a else runEnv env b := by
  split <;> rfl

@[simp] theorem runEnv_thenCatch (env : Env) (s : Settle)
    (onRes onErr : JSVal → Option Settle) :
    runEnv env (thenCatch s onRes onErr) = env := by
  cases s with
  | resolved v => cases h : onRes v <;> simp [thenCatch, h]
  | rejected e => cases h : onErr e <;> simp [thenCatch, h]

/-! Small computation lemmas about the JS value model. -/

theorem jsGetOpt_of_not_null (v : JSVal) (h : isNullOrUndefined v = false)
    (f : String) : jsGetOpt v f = some (jsField v f) := by
  cases v <;> simp_all [jsGetOpt, isNullOrUndefined]

theorem jsGetOpt_obj (fields : List (String × JSVal)) (f : String) :
    jsGetOpt (.obj fields) f = some (jsField (.obj fields) f) := rfl

theorem jsField_cons_hit (k : String) (v : JSVal)
    (rest : List (String × JSVal)) :
    jsField (.obj ((k, v) :: rest)) k = v := by
  simp [jsField]

theorem jsMapGetList_of_all (f : String) (xs : List JSVal)
    (h : xs.all (fun el => !isNullOrUndefined el) = true) :
    jsMapGetList f xs = some (xs.map (fun el => jsField el f)) := by
  induction xs with
  | nil => rfl
  | cons a t ih =>
    simp only [List.all_cons, Bool.and_eq_true, Bool.not_eq_true'] at h
    simp [jsMapGetList, jsGetOpt_of_not_null _ h.1,
      ih (by simpa [List.all_eq_true] using h.2)]

theorem jsMapGet_arr (f : String) (xs : List JSVal)
    (h : xs.all (fun el => !isNullOrUndefined el) = true) :
    jsMapGet f (.arr xs) = some (.arr (xs.map (fun el => jsField el f))) := by
  simp [jsMapGet, jsMapGetList_of_all _ _ h]

theorem strip_last_slash : ∀ (l : List Char), l.getLast? = some '/' →
    stripTrailingSlash l ++ ['/'] = l := by
  intro l
  induction l with
  | nil => intro h; simp at h
  | cons c t ih =>
    intro h
    cases t with
    | nil =>
      simp [List.getLast?] at h
      simp [stripTrailingSlash, h]
    | cons d u =>
      rw [List.getLast?_cons_cons] at h
      simp [stripTrailingSlash, ih h]

theorem strip_no_slash : ∀ (l : List Char), l.getLast? ≠ some '/' →
    stripTrailingSlash l = l := by
  intro l
  induction l with
  | nil => intro _; rfl
  | cons c t ih =>
    intro h
    cases t with
    | nil =>
      simp [List.getLast?] at h
      simp [stripTrailingSlash, h]
    | cons d u =>
      rw [List.getLast?_cons_cons] at h
      simp [stripTrailingSlash, ih h]

/-- C1: each of the four admin request helpers maps an HTTP response
with status 404, 403 or 500 to a rejection carrying the corresponding
fixed message, resolves every other response with an object wrapping
the response data, and maps an axios error to a rejection carrying the
error message string. -/
theorem claim_C1_status_mapping (env : Env) (path data : JSVal)
    (resp : Response) (e : AxiosErr) :
    ((resp.status = 404 →
        (admin.getRequest env path (.ok resp)).2 =
          .rejected (.str "404 Not found, check your host is correct")) ∧
     (resp.status = 403 →
        (admin.getRequest env path (.ok resp)).2 =
          .rejected (.str "403 Forbidden, please check your API key is correct, or that you setup permissions correctly")) ∧
     (resp.status = 500 →
        (admin.getRequest env path (.ok resp)).2 =
          .rejected (.str "500 Internal Server Error, check your server logs for the error")) ∧
     (resp.status ≠ 404 → resp.status ≠ 403 → resp.status ≠ 500 →
        (admin.getRequest env path (.ok resp)).2 =
          .resolved (.obj [("data", resp.data)])) ∧
     (admin.getRequest env path (.error e)).2 =
        .rejected (.str e.message)) ∧
    ((resp.status = 404 →
        (admin.deleteRequest env path (.ok resp)).2 =
          .rejected (.str "404 Not found, check your host is correct")) ∧
     (resp.status = 403 →
        (admin.deleteRequest env path (.ok resp)).2 =
          .rejected (.str "403 Forbidden, please check your API key is correct, or that you setup permissions correctly")) ∧
     (resp.status = 500 →
        (admin.deleteRequest env path (.ok resp)).2 =
          .rejected (.str "500 Internal Server Error, check your server logs for the error")) ∧
     (resp.status ≠ 404 → resp.status ≠ 403 → resp.status ≠ 500 →
        (admin.deleteRequest env path (.ok resp)).2 =
          .resolved (.obj [("data", resp.data)])) ∧
     (admin.deleteRequest env path (.error e)).2 =
        .rejected (.str e.message)) ∧
    ((resp.status = 404 →
        (admin.patchRequest env path data (.ok resp)).2 =
          .rejected (.str "404 Not found, check your host is correct")) ∧
     (resp.status = 403 →
        (admin.patchRequest env path data (.ok resp)).2 =
          .rejected (.str "403 Forbidden, please check your API key is correct, or that you setup permissions correctly")) ∧
     (resp.status = 500 →
        (admin.patchRequest env path data (.ok resp)).2 =
          .rejected (.str "500 Internal Server Error, check your server logs for the error")) ∧
     (resp.status ≠ 404 → resp.status ≠ 403 → resp.status ≠ 500 →
        (admin.patchRequest env path data (.ok resp)).2 =
          .resolved (.obj [("data", resp.data)])) ∧
     (admin.patchRequest env path data (.error e)).2 =
        .rejected (.str e.message)) ∧
    ((resp.status = 404 →
        (admin.postRequest env path data (.ok resp)).2 =
          .rejected (.str "404 Not found, check your host is correct")) ∧
     (resp.status = 403 →
        (admin.postRequest env path data (.ok resp)).2 =
          .rejected (.str "403 Forbidden, please check your API key is correct, or that you setup permissions correctly")) ∧
     (resp.status = 500 →
        (admin.postRequest env path data (.ok resp)).2 =
          .rejected (.str "500 Internal Server Error, check your server logs for the error")) ∧
     (resp.status ≠ 404 → resp.status ≠ 403 → resp.status ≠ 500 →
        (admin.postRequest env path data (.ok resp)).2 =
          .resolved (.obj [("data", resp.data)])) ∧
     (admin.postRequest env path data (.error e)).2 =
        .rejected (.str e.message)) := by
  refine ⟨⟨?_, ?_, ?_, ?_, ?_⟩, ⟨?_, ?_, ?_, ?_, ?_⟩,
    ⟨?_, ?_, ?_, ?_, ?_⟩, ⟨?_, ?_, ?_, ?_, ?_⟩⟩ <;>
    intros <;>
    simp [admin.getRequest, admin.deleteRequest, admin.patchRequest,
      admin.postRequest, *]

/-- Witness for C1 at concrete credentials, path, payload, responses of
status 404, 403, 500 and 200, and a concrete axios error. -/
theorem claim_C1_witness :
    ((admin.getRequest ⟨"h", "k"⟩ (.str "/p") (.ok ⟨404, .null⟩)).2 =
       .rejected (.str "404 Not found, check your host is correct")) ∧
    ((admin.getRequest ⟨"h", "k"⟩ (.str "/p") (.ok ⟨403, .null⟩)).2 =
       .rejected (.str "403 Forbidden, please check your API key is correct, or that you setup permissions correctly")) ∧
    ((admin.getRequest ⟨"h", "k"⟩ (.str "/p") (.ok ⟨500, .null⟩)).2 =
       .rejected (.str "500 Internal Server Error, check your server logs for the error")) ∧
    ((admin.getRequest ⟨"h", "k"⟩ (.str "/p") (.ok ⟨200, .str "ok"⟩)).2 =
       .resolved (.obj [("data", .str "ok")])) ∧
    ((admin.getRequest ⟨"h", "k"⟩ (.str "/p") (.error ⟨"boom", none⟩)).2 =
       .rejected (.str "boom")) ∧
    ((admin.deleteRequest ⟨"h", "k"⟩ (.str "/p") (.ok ⟨404, .null⟩)).2 =
       .rejected (.str "404 Not found, check your host is correct")) ∧
    ((admin.deleteRequest ⟨"h", "k"⟩ (.str "/p") (.ok ⟨403, .null⟩)).2 =
       .rejected (.str "403 Forbidden, please check your API key is correct, or that you setup permissions correctly")) ∧
    ((admin.deleteRequest ⟨"h", "k"⟩ (.str "/p") (.ok ⟨500, .null⟩)).2 =
       .rejected (.str "500 Internal Server Error, check your server logs for the error")) ∧
    ((admin.deleteRequest ⟨"h", "k"⟩ (.str "/p") (.ok ⟨200, .str "ok"⟩)).2 =
       .resolved (.obj [("data", .str "ok")])) ∧
    ((admin.deleteRequest ⟨"h", "k"⟩ (.str "/p") (.error ⟨"boom", none⟩)).2 =
       .rejected (.str "boom")) ∧
    ((admin.patchRequest ⟨"h", "k"⟩ (.str "/p") (.obj []) (.ok ⟨404, .null⟩)).2 =
       .rejected (.str "404 Not found, check your host is correct")) ∧
    ((admin.patchRequest ⟨"h", "k"⟩ (.str "/p") (.obj []) (.ok ⟨403, .null⟩)).2 =
       .rejected (.str "403 Forbidden, please check your API key is correct, or that you setup permissions correctly")) ∧
    ((admin.patchRequest ⟨"h", "k"⟩ (.str "/p") (.obj []) (.ok ⟨500, .null⟩)).2 =
       .rejected (.str "500 Internal Server Error, check your server logs for the error")) ∧
    ((admin.patchRequest ⟨"h", "k"⟩ (.str "/p") (.obj []) (.ok ⟨200, .str "ok"⟩)).2 =
       .resolved (.obj [("data", .str "ok")])) ∧
    ((admin.patchRequest ⟨"h", "k"⟩ (.str "/p") (.obj []) (.error ⟨"boom", none⟩)).2 =
       .rejected (.str "boom")) ∧
    ((admin.postRequest ⟨"h", "k"⟩ (.str "/p") (.obj []) (.ok ⟨404, .null⟩)).2 =
       .rejected (.str "404 Not found, check your host is correct")) ∧
    ((admin.postRequest ⟨"h", "k"⟩ (.str "/p") (.obj []) (.ok ⟨403, .null⟩)).2 =
       .rejected (.str "403 Forbidden, please check your API key is correct, or that you setup permissions correctly")) ∧
    ((admin.postRequest ⟨"h", "k"⟩ (.str "/p") (.obj []) (.ok ⟨500, .null⟩)).2 =
       .rejected (.str "500 Internal Server Error, check your server logs for the error")) ∧
    ((admin.postRequest ⟨"h", "k"⟩ (.str "/p") (.obj []) (.ok ⟨200, .str "ok"⟩)).2 =
       .resolved (.obj [("data", .str "ok")])) ∧
    ((admin.postRequest ⟨"h", "k"⟩ (.str "/p") (.obj []) (.error ⟨"boom", none⟩)).2 =
       .rejected (.str "boom")) :=
  ⟨(claim_C1_status_mapping ⟨"h", "k"⟩ (.str "/p") (.obj []) ⟨404, .null⟩ ⟨"boom", none⟩).1.1 rfl,
   (claim_C1_status_mapping ⟨"h", "k"⟩ (.str "/p") (.obj []) ⟨403, .null⟩ ⟨"boom", none⟩).1.2.1 rfl,
   (claim_C1_status_mapping ⟨"h", "k"⟩ (.str "/p") (.obj []) ⟨500, .null⟩ ⟨"boom", none⟩).1.2.2.1 rfl,
   (claim_C1_status_mapping ⟨"h", "k"⟩ (.str "/p") (.obj []) ⟨200, .str "ok"⟩ ⟨"boom", none⟩).1.2.2.2.1
     (by decide) (by decide) (by decide),
   (claim_C1_status_mapping ⟨"h", "k"⟩ (.str "/p") (.obj []) ⟨200, .null⟩ ⟨"boom", none⟩).1.2.2.2.2,
   (claim_C1_status_mapping ⟨"h", "k"⟩ (.str "/p") (.obj []) ⟨404, .null⟩ ⟨"boom", none⟩).2.1.1 rfl,
   (claim_C1_status_mapping ⟨"h", "k"⟩ (.str "/p") (.obj []) ⟨403, .null⟩ ⟨"boom", none⟩).2.1.2.1 rfl,
   (claim_C1_status_mapping ⟨"h", "k"⟩ (.str "/p") (.obj []) ⟨500, .null⟩ ⟨"boom", none⟩).2.1.2.2.1 rfl,
   (claim_C1_status_mapping ⟨"h", "k"⟩ (.str "/p") (.obj []) ⟨200, .str "ok"⟩ ⟨"boom", none⟩).2.1.2.2.2.1
     (by decide) (by decide) (by decide),
   (claim_C1_status_mapping ⟨"h", "k"⟩ (.str "/p") (.obj []) ⟨200, .null⟩ ⟨"boom", none⟩).2.1.2.2.2.2,
   (claim_C1_status_mapping ⟨"h", "k"⟩ (.str "/p") (.obj []) ⟨404, .null⟩ ⟨"boom", none⟩).2.2.1.1 rfl,
   (claim_C1_status_mapping ⟨"h", "k"⟩ (.str "/p") (.obj []) ⟨403, .null⟩ ⟨"boom", none⟩).2.2.1.2.1 rfl,
   (claim_C1_status_mapping ⟨"h", "k"⟩ (.str "/p") (.obj []) ⟨500, .null⟩ ⟨"boom", none⟩).2.2.1.2.2.1 rfl,
   (claim_C1_status_mapping ⟨"h", "k"⟩ (.str "/p") (.obj []) ⟨200, .str "ok"⟩ ⟨"boom", none⟩).2.2.1.2.2.2.1
     (by decide) (by decide) (by decide),
   (claim_C1_status_mapping ⟨"h", "k"⟩ (.str "/p") (.obj []) ⟨200, .null⟩ ⟨"boom", none⟩).2.2.1.2.2.2.2,
   (claim_C1_status_mapping ⟨"h", "k"⟩ (.str "/p") (.obj []) ⟨404, .null⟩ ⟨"boom", none⟩).2.2.2.1 rfl,
   (claim_C1_status_mapping ⟨"h", "k"⟩ (.str "/p") (.obj []) ⟨403, .null⟩ ⟨"boom", none⟩).2.2.2.2.1 rfl,
   (claim_C1_status_mapping ⟨"h", "k"⟩ (.str "/p") (.obj []) ⟨500, .null⟩ ⟨"boom", none⟩).2.2.2.2.2.1 rfl,
   (claim_C1_status_mapping ⟨"h", "k"⟩ (.str "/p") (.obj []) ⟨200, .str "ok"⟩ ⟨"boom", none⟩).2.2.2.2.2.2.1
     (by decide) (by decide) (by decide),
   (claim_C1_status_mapping ⟨"h", "k"⟩ (.str "/p") (.obj []) ⟨200, .null⟩ ⟨"boom", none⟩).2.2.2.2.2.2.2⟩

/-- C2 counterexample: calling `createDatabase` with a NaN internal id
and the number 5 as database name makes two validation checks fail, but
the promise settles with the first message only, so it does not reject
with the message corresponding to the failing database argument. -/
theorem claim_C2_counterexample :
    createDatabase_failMsgs .nan (.num 5) (.num 3) (.str "%") =
      ["Internal ID must be a number", "Database name must be a string"] ∧
    firstSettle (createDatabase ⟨"http://h", "k"⟩ (.ok ⟨200, .null⟩)
        .nan (.num 5) (.num 3) (.str "%")) =
      some (.rejected (.str "Internal ID must be a number")) ∧
    "Internal ID must be a number" ≠ "Database name must be a string" :=
  ⟨rfl, rfl, by decide⟩

/-- C2 (amended): for every exported function, an invocation on which
at least one validation check fails settles rejected with the message
of the first failing check in source order; messages of later failing
checks are never the settled value.  The exported functions without any
validation check (`getAllServers`, `getServerInformation`, `setApiKey`)
satisfy this vacuously. -/
theorem claim_C2_first_failing_check :
    (∀ env r internal_id m,
       (getAllDatabases_failMsgs internal_id).head? = some m →
       firstSettle (getAllDatabases env r internal_id) =
         some (.rejected (.str m))) ∧
    (∀ env r internal_id database_id m,
       (getDatabase_failMsgs internal_id database_id).head? = some m →
       firstSettle (getDatabase env r internal_id database_id) =
         some (.rejected (.str m))) ∧
    (∀ env r internal_id database host remote m,
       (createDatabase_failMsgs internal_id database host remote).head? =
         some m →
       firstSettle (createDatabase env r internal_id database host remote) =
         some (.rejected (.str m))) ∧
    (∀ env r na de us eg st di al so en me dk cp sw io2 aa db alc dep sk oo msg,
       (createServer_failMsgs na us eg st di al so en me dk cp sw io2 aa db
          dep sk oo).head? = some msg →
       firstSettle (createServer env r na de us eg st di al so en me dk cp sw
          io2 aa db alc dep sk oo) = some (.rejected (.str msg))) ∧
    (∀ env r internal_id m,
       (suspendServer_failMsgs internal_id).head? = some m →
       firstSettle (suspendServer env r internal_id) =
         some (.rejected (.str m))) ∧
    (∀ env r internal_id m,
       (unsuspendServer_failMsgs internal_id).head? = some m →
       firstSettle (unsuspendServer env r internal_id) =
         some (.rejected (.str m))) ∧
    (∀ env r internal_id m,
       (reinstallServer_failMsgs internal_id).head? = some m →
       firstSettle (reinstallServer env r internal_id) =
         some (.rejected (.str m))) ∧
    (∀ env r internal_id m,
       (rebuildServer_failMsgs internal_id).head? = some m →
       firstSettle (rebuildServer env r internal_id) =
         some (.rejected (.str m))) ∧
    (∀ env r internal_id m,
       (deleteServer_failMsgs internal_id).head? = some m →
       firstSettle (deleteServer env r internal_id) =
         some (.rejected (.str m))) ∧
    (∀ env r internal_id name user external_id description m,
       (updateServerDetails_failMsgs internal_id name user).head? = some m →
       firstSettle (updateServerDetails env r internal_id name user
          external_id description) = some (.rejected (.str m))) ∧
    (∀ env r internal_id allocation_id database_limit allocation_limit memory
        disk cpu swap io2 add_allocations remove_allocations oom_disabled m,
       (updateServerBuildConfiguration_failMsgs internal_id
          allocation_id).head? = some m →
       firstSettle (updateServerBuildConfiguration env r internal_id
          allocation_id database_limit allocation_limit memory disk cpu swap
          io2 add_allocations remove_allocations oom_disabled) =
         some (.rejected (.str m))) := by
  refine ⟨?_, ?_, ?_, ?_, ?_, ?_, ?_, ?_, ?_, ?_, ?_⟩
  · intro env r internal_id m hm
    simp only [getAllDatabases_failMsgs] at hm
    repeat' split at hm
    all_goals simp_all [getAllDatabases, firstSettle]
  · intro env r internal_id database_id m hm
    simp only [getDatabase_failMsgs] at hm
    repeat' split at hm
    all_goals simp_all [getDatabase, firstSettle]
  · intro env r internal_id database host remote m hm
    simp only [createDatabase_failMsgs] at hm
    repeat' split at hm
    all_goals simp_all [createDatabase, firstSettle]
  · intro env r na de us eg st di al so en me dk cp sw io2 aa db alc dep sk oo msg hm
    simp only [createServer_failMsgs] at hm
    by_cases h1 : (typeof na != "string") = true
    · simp [h1] at hm; simp [createServer, firstSettle, h1, hm]
    by_cases h2 : (typeof us != "number") = true
    · simp [h1, h2] at hm; simp [createServer, firstSettle, h1, h2, hm]
    by_cases h3 : (typeof eg != "number") = true
    · simp [h1, h2, h3] at hm; simp [createServer, firstSettle, h1, h2, h3, hm]
    by_cases h4 : (typeof st != "string") = true
    · simp [h1, h2, h3, h4] at hm
      simp [createServer, firstSettle, h1, h2, h3, h4, hm]
    by_cases h5 : (typeof me != "number") = true
    · simp [h1, h2, h3, h4, h5] at hm
      simp [createServer, firstSettle, h1, h2, h3, h4, h5, hm]
    by_cases h6 : (typeof dk != "number") = true
    · simp [h1, h2, h3, h4, h5, h6] at hm
      simp [createServer, firstSettle, h1, h2, h3, h4, h5, h6, hm]
    by_cases h7 : (typeof di != "string") = true
    · simp [h1, h2, h3, h4, h5, h6, h7] at hm
      simp [createServer, firstSettle, h1, h2, h3, h4, h5, h6, h7, hm]
    by_cases h8 : (typeof al != "number") = true
    · simp [h1, h2, h3, h4, h5, h6, h7, h8] at hm
      simp [createServer, firstSettle, h1, h2, h3, h4, h5, h6, h7, h8, hm]
    by_cases h9 : (typeof so != "boolean") = true
    · simp [h1, h2, h3, h4, h5, h6, h7, h8, h9] at hm
      simp [createServer, firstSettle, h1, h2, h3, h4, h5, h6, h7, h8, h9, hm]
    by_cases h10 : (!jsIsArray (withDefault aa (.arr []))) = true
    · simp [h1, h2, h3, h4, h5, h6, h7, h8, h9, h10] at hm
      simp [createServer, firstSettle, h1, h2, h3, h4, h5, h6, h7, h8, h9,
        h10, hm]
    by_cases h11 : (typeof (withDefault cp (.num 0)) != "number") = true
    · simp [h1, h2, h3, h4, h5, h6, h7, h8, h9, h10, h11] at hm
      simp [createServer, firstSettle, h1, h2, h3, h4, h5, h6, h7, h8, h9,
        h10, h11, hm]
    by_cases h12 : (typeof (withDefault sw (.num (-1))) != "number") = true
    · simp [h1, h2, h3, h4, h5, h6, h7, h8, h9, h10, h11, h12] at hm
      simp [createServer, firstSettle, h1, h2, h3, h4, h5, h6, h7, h8, h9,
        h10, h11, h12, hm]
    by_cases h13 : (typeof (withDefault io2 (.num 500)) != "number") = true
    · simp [h1, h2, h3, h4, h5, h6, h7, h8, h9, h10, h11, h12, h13] at hm
      simp [createServer, firstSettle, h1, h2, h3, h4, h5, h6, h7, h8, h9,
        h10, h11, h12, h13, hm]
    by_cases h14 : (typeof en != "object") = true
    · simp [h1, h2, h3, h4, h5, h6, h7, h8, h9, h10, h11, h12, h13, h14] at hm
      simp [createServer, firstSettle, h1, h2, h3, h4, h5, h6, h7, h8, h9,
        h10, h11, h12, h13, h14, hm]
    by_cases h15 : (typeof (withDefault db (.num 0)) != "number") = true
    · simp [h1, h2, h3, h4, h5, h6, h7, h8, h9, h10, h11, h12, h13, h14,
        h15] at hm
      simp [createServer, firstSettle, h1, h2, h3, h4, h5, h6, h7, h8, h9,
        h10, h11, h12, h13, h14, h15, hm]
    by_cases h16 : (typeof (withDefault dep deployDefault) != "object") = true
    · simp [h1, h2, h3, h4, h5, h6, h7, h8, h9, h10, h11, h12, h13, h14, h15,
        h16] at hm
      simp [createServer, firstSettle, h1, h2, h3, h4, h5, h6, h7, h8, h9,
        h10, h11, h12, h13, h14, h15, h16, hm]
    by_cases h17 : (typeof (withDefault sk (.bool false)) != "boolean") = true
    · simp [h1, h2, h3, h4, h5, h6, h7, h8, h9, h10, h11, h12, h13, h14, h15,
        h16, h17] at hm
      simp [createServer, firstSettle, h1, h2, h3, h4, h5, h6, h7, h8, h9,
        h10, h11, h12, h13, h14, h15, h16, h17, hm]
    by_cases h18 : (typeof (withDefault oo (.bool true)) != "boolean") = true
    · simp [h1, h2, h3, h4, h5, h6, h7, h8, h9, h10, h11, h12, h13, h14, h15,
        h16, h17, h18] at hm
      simp [createServer, firstSettle, h1, h2, h3, h4, h5, h6, h7, h8, h9,
        h10, h11, h12, h13, h14, h15, h16, h17, h18, hm]
    · simp [h1, h2, h3, h4, h5, h6, h7, h8, h9, h10, h11, h12, h13, h14, h15,
        h16, h17, h18] at hm
  · intro env r internal_id m hm
    simp only [suspendServer_failMsgs] at hm
    repeat' split at hm
    all_goals simp_all [suspendServer, firstSettle]
  · intro env r internal_id m hm
    simp only [unsuspendServer_failMsgs] at hm
    repeat' split at hm
    all_goals simp_all [unsuspendServer, firstSettle]
  · intro env r internal_id m hm
    simp only [reinstallServer_failMsgs] at hm
    repeat' split at hm
    all_goals simp_all [reinstallServer, firstSettle]
  · intro env r internal_id m hm
    simp only [rebuildServer_failMsgs] at hm
    repeat' split at hm
    all_goals simp_all [rebuildServer, firstSettle]
  · intro env r internal_id m hm
    simp only [deleteServer_failMsgs] at hm
    repeat' split at hm
    all_goals simp_all [deleteServer, firstSettle]
  · intro env r internal_id name user external_id description m hm
    simp only [updateServerDetails_failMsgs] at hm
    repeat' split at hm
    all_goals simp_all [updateServerDetails, firstSettle]
  · intro env r internal_id allocation_id database_limit allocation_limit
      memory disk cpu swap io2 add_allocations remove_allocations
      oom_disabled m hm
    simp only [updateServerBuildConfiguration_failMsgs] at hm
    repeat' split at hm
    all_goals simp_all [updateServerBuildConfiguration, firstSettle]

/-- Witness for C2 (amended): concrete invocations with an invalid
first argument settle rejected with the first failing message. -/
theorem claim_C2_witness :
    firstSettle (getAllDatabases ⟨"http://h", "k"⟩ (.ok ⟨200, .null⟩)
        (.str "abc")) =
      some (.rejected (.str "Internal ID must be a number")) ∧
    firstSettle (createServer ⟨"http://h", "k"⟩ (.ok ⟨200, .null⟩)
        (.num 7) .undefined (.num 1) (.num 2) (.str "cmd") (.str "img") (.num 3)
        (.bool true) (.obj []) (.num 64) (.num 10) .undefined .undefined .undefined
        .undefined .undefined .undefined .undefined .undefined .undefined) =
      some (.rejected (.str "Error: Server name must be a string")) :=
  ⟨claim_C2_first_failing_check.1 ⟨"http://h", "k"⟩ (.ok ⟨200, .null⟩)
     (.str "abc") "Internal ID must be a number" (by decide),
   claim_C2_first_failing_check.2.2.2.1 ⟨"http://h", "k"⟩ (.ok ⟨200, .null⟩)
     (.num 7) .undefined (.num 1) (.num 2) (.str "cmd") (.str "img") (.num 3)
     (.bool true) (.obj []) (.num 64) (.num 10) .undefined .undefined .undefined .undefined
     .undefined .undefined .undefined .undefined .undefined
     "Error: Server name must be a string" (by decide)⟩

/-- C3 counterexample: the probe request of `setApiKey` is the single
HTTP call of that invocation, and it is not a request the shared helper
can produce (the helper never sets `responseEncoding`), so not every
exported function routes its call through the request helper. -/
theorem claim_C3_counterexample :
    httpCalls (setApiKey "http://h" "k" (.error ⟨"boom", none⟩)) =
      [⟨.get, .str "http://h/api/application/users",
        ⟨"Bearer k", "application/json",
         "Application/vnd.pterodactyl.v1+json"⟩,
        none, some 5, none, some "utf8"⟩] ∧
    ¬ isHelperCall
      ⟨.get, .str "http://h/api/application/users",
       ⟨"Bearer k", "application/json",
        "Application/vnd.pterodactyl.v1+json"⟩,
       none, some 5, none, some "utf8"⟩ := by
  refine ⟨rfl, ?_⟩
  rintro (⟨e2, p2, r2, he⟩ | ⟨e2, p2, r2, he⟩ | ⟨e2, p2, d2, r2, he⟩ |
    ⟨e2, p2, d2, r2, he⟩) <;>
    exact Option.noConfusion (congrArg HttpRequest.responseEncoding he)

/-- C3 (amended): every invocation of each of the thirteen exported
server endpoint functions issues exactly one HTTP call, and that call
goes through one of the four shared request helpers; `setApiKey` also
issues exactly one HTTP call, but directly through axios rather than
through the request helper. -/
theorem claim_C3_single_call :
    (∀ env r, ∃ q, httpCalls (getAllServers env r) = [q] ∧ isHelperCall q) ∧
    (∀ env r id external, ∃ q,
       httpCalls (getServerInformation env r id external) = [q] ∧
       isHelperCall q) ∧
    (∀ env r internal_id, ∃ q,
       httpCalls (getAllDatabases env r internal_id) = [q] ∧
       isHelperCall q) ∧
    (∀ env r internal_id database_id, ∃ q,
       httpCalls (getDatabase env r internal_id database_id) = [q] ∧
       isHelperCall q) ∧
    (∀ env r internal_id database host remote, ∃ q,
       httpCalls (createDatabase env r internal_id database host remote) =
         [q] ∧ isHelperCall q) ∧
    (∀ env r na de us eg st di al so en me dk cp sw io2 aa db alc dep sk oo,
       ∃ q, httpCalls (createServer env r na de us eg st di al so en me dk cp
         sw io2 aa db alc dep sk oo) = [q] ∧ isHelperCall q) ∧
    (∀ env r internal_id, ∃ q,
       httpCalls (suspendServer env r internal_id) = [q] ∧ isHelperCall q) ∧
    (∀ env r internal_id, ∃ q,
       httpCalls (unsuspendServer env r internal_id) = [q] ∧ isHelperCall q) ∧
    (∀ env r internal_id, ∃ q,
       httpCalls (reinstallServer env r internal_id) = [q] ∧ isHelperCall q) ∧
    (∀ env r internal_id, ∃ q,
       httpCalls (rebuildServer env r internal_id) = [q] ∧ isHelperCall q) ∧
    (∀ env r internal_id, ∃ q,
       httpCalls (deleteServer env r internal_id) = [q] ∧ isHelperCall q) ∧
    (∀ env r internal_id name user external_id description, ∃ q,
       httpCalls (updateServerDetails env r internal_id name user external_id
         description) = [q] ∧ isHelperCall q) ∧
    (∀ env r internal_id allocation_id database_limit allocation_limit memory
        disk cpu swap io2 add_allocations remove_allocations oom_disabled,
       ∃ q, httpCalls (updateServerBuildConfiguration env r internal_id
         allocation_id database_limit allocation_limit memory disk cpu swap
         io2 add_allocations remove_allocations oom_disabled) = [q] ∧
       isHelperCall q) ∧
    (∀ host key r, ∃ q,
       httpCalls (setApiKey host key r) = [q] ∧ ¬ isHelperCall q) := by
  refine ⟨?_, ?_, ?_, ?_, ?_, ?_, ?_, ?_, ?_, ?_, ?_, ?_, ?_, ?_⟩
  · intro env r
    simp only [getAllServers, httpCalls_append, httpCalls_ite, httpCalls_nil,
      httpCalls_cons_settle, httpCalls_cons_httpCall, httpCalls_cons_log,
      httpCalls_thenCatch, ite_self]
    exact ⟨_, rfl, Or.inl ⟨_, _, _, rfl⟩⟩
  · intro env r id external
    simp only [getServerInformation, httpCalls_append, httpCalls_ite,
      httpCalls_nil, httpCalls_cons_settle, httpCalls_cons_httpCall,
      httpCalls_cons_log, httpCalls_thenCatch, ite_self]
    exact ⟨_, rfl, Or.inl ⟨_, _, _, rfl⟩⟩
  · intro env r internal_id
    simp only [getAllDatabases, httpCalls_append, httpCalls_ite,
      httpCalls_nil, httpCalls_cons_settle, httpCalls_cons_httpCall,
      httpCalls_cons_log, httpCalls_thenCatch, ite_self]
    exact ⟨_, rfl, Or.inl ⟨_, _, _, rfl⟩⟩
  · intro env r internal_id database_id
    simp only [getDatabase, httpCalls_append, httpCalls_ite, httpCalls_nil,
      httpCalls_cons_settle, httpCalls_cons_httpCall, httpCalls_cons_log,
      httpCalls_thenCatch, ite_self]
    exact ⟨_, rfl, Or.inl ⟨_, _, _, rfl⟩⟩
  · intro env r internal_id database host remote
    simp only [createDatabase, httpCalls_append, httpCalls_ite, httpCalls_nil,
      httpCalls_cons_settle, httpCalls_cons_httpCall, httpCalls_cons_log,
      httpCalls_thenCatch, ite_self]
    exact ⟨_, rfl, Or.inr (Or.inr (Or.inr ⟨_, _, _, _, rfl⟩))⟩
  · intro env r na de us eg st di al so en me dk cp sw io2 aa db alc dep sk oo
    simp only [createServer, httpCalls_append, httpCalls_ite, httpCalls_nil,
      httpCalls_cons_settle, httpCalls_cons_httpCall, httpCalls_cons_log,
      httpCalls_thenCatch, ite_self]
    exact ⟨_, rfl, Or.inr (Or.inr (Or.inr ⟨_, _, _, _, rfl⟩))⟩
  · intro env r internal_id
    simp only [suspendServer, httpCalls_append, httpCalls_ite, httpCalls_nil,
      httpCalls_cons_settle, httpCalls_cons_httpCall, httpCalls_cons_log,
      httpCalls_thenCatch, ite_self]
    exact ⟨_, rfl, Or.inr (Or.inr (Or.inr ⟨_, _, _, _, rfl⟩))⟩
  · intro env r internal_id
    simp only [unsuspendServer, httpCalls_append, httpCalls_ite,
      httpCalls_nil, httpCalls_cons_settle, httpCalls_cons_httpCall,
      httpCalls_cons_log, httpCalls_thenCatch, ite_self]
    exact ⟨_, rfl, Or.inr (Or.inr (Or.inr ⟨_, _, _, _, rfl⟩))⟩
  · intro env r internal_id
    simp only [reinstallServer, httpCalls_append, httpCalls_ite,
      httpCalls_nil, httpCalls_cons_settle, httpCalls_cons_httpCall,
      httpCalls_cons_log, httpCalls_thenCatch, ite_self]
    exact ⟨_, rfl, Or.inr (Or.inr (Or.inr ⟨_, _, _, _, rfl⟩))⟩
  · intro env r internal_id
    simp only [rebuildServer, httpCalls_append, httpCalls_ite, httpCalls_nil,
      httpCalls_cons_settle, httpCalls_cons_httpCall, httpCalls_cons_log,
      httpCalls_thenCatch, ite_self]
    exact ⟨_, rfl, Or.inr (Or.inr (Or.inr ⟨_, _, _, _, rfl⟩))⟩
  · intro env r internal_id
    simp only [deleteServer, httpCalls_append, httpCalls_ite, httpCalls_nil,
      httpCalls_cons_settle, httpCalls_cons_httpCall, httpCalls_cons_log,
      httpCalls_thenCatch, ite_self]
    exact ⟨_, rfl, Or.inr (Or.inl ⟨_, _, _, rfl⟩)⟩
  · intro env r internal_id name user external_id description
    simp only [updateServerDetails, httpCalls_append, httpCalls_ite,
      httpCalls_nil, httpCalls_cons_settle, httpCalls_cons_httpCall,
      httpCalls_cons_log, httpCalls_thenCatch, ite_self]
    exact ⟨_, rfl, Or.inr (Or.inr (Or.inl ⟨_, _, _, _, rfl⟩))⟩
  · intro env r internal_id allocation_id database_limit allocation_limit
      memory disk cpu swap io2 add_allocations remove_allocations oom_disabled
    simp only [updateServerBuildConfiguration, httpCalls_append,
      httpCalls_ite, httpCalls_nil, httpCalls_cons_settle,
      httpCalls_cons_httpCall, httpCalls_cons_log, httpCalls_thenCatch,
      ite_self]
    exact ⟨_, rfl, Or.inr (Or.inr (Or.inl ⟨_, _, _, _, rfl⟩))⟩
  · intro host key r
    refine ⟨⟨.get, .str (host ++ "/api/application/users"),
      ⟨"Bearer " ++ key, "application/json",
       "Application/vnd.pterodactyl.v1+json"⟩,
      none, some 5, none, some "utf8"⟩, ?_, ?_⟩
    · simp [setApiKey, httpCalls]
    · rintro (⟨e2, p2, r2, he⟩ | ⟨e2, p2, r2, he⟩ | ⟨e2, p2, d2, r2, he⟩ |
        ⟨e2, p2, d2, r2, he⟩) <;>
        exact Option.noConfusion (congrArg HttpRequest.responseEncoding he)

/-- C4: the path expression of `getServerInformation` parses as a
conditional over the string concatenation, so for internal lookups
(external = false, the default) the issued GET goes to
host + "external/" + id instead of the documented
host + "/api/application/servers/" + id; the same wrong path is used
when external is true. -/
theorem claim_C4_path_bug :
    httpCalls (getServerInformation ⟨"http://h", "k"⟩ (.ok ⟨200, .null⟩)
        (.num 5) (.bool false)) =
      [⟨.get, .str "http://hexternal/5",
        ⟨"Bearer k", "application/json",
         "Application/vnd.pterodactyl.v1+json"⟩, none, none, none, none⟩] ∧
    httpCalls (getServerInformation ⟨"http://h", "k"⟩ (.ok ⟨200, .null⟩)
        (.num 5) (.bool true)) =
      [⟨.get, .str "http://hexternal/5",
        ⟨"Bearer k", "application/json",
         "Application/vnd.pterodactyl.v1+json"⟩, none, none, none, none⟩] ∧
    "http://hexternal/5" ≠ "http://h/api/application/servers/5" ∧
    "http://hexternal/5" ≠ "http://h/api/application/servers/external/5" :=
  ⟨rfl, rfl, by decide, by decide⟩

/-- C5: no exported endpoint function writes the stored credentials:
replaying the effects of any invocation of the thirteen endpoint
functions leaves `ADMIN_HOST` and `ADMIN_KEY` unchanged, while
`setApiKey` is the one function whose effects set them (to the cleaned
host and the key). -/
theorem claim_C5_credentials_frame :
    (∀ env2 env r, runEnv env2 (getAllServers env r) = env2) ∧
    (∀ env2 env r id external,
       runEnv env2 (getServerInformation env r id external) = env2) ∧
    (∀ env2 env r internal_id,
       runEnv env2 (getAllDatabases env r internal_id) = env2) ∧
    (∀ env2 env r internal_id database_id,
       runEnv env2 (getDatabase env r internal_id database_id) = env2) ∧
    (∀ env2 env r internal_id database host remote,
       runEnv env2 (createDatabase env r internal_id database host remote) =
         env2) ∧
    (∀ env2 env r na de us eg st di al so en me dk cp sw io2 aa db alc dep sk
        oo, runEnv env2 (createServer env r na de us eg st di al so en me dk
         cp sw io2 aa db alc dep sk oo) = env2) ∧
    (∀ env2 env r internal_id,
       runEnv env2 (suspendServer env r internal_id) = env2) ∧
    (∀ env2 env r internal_id,
       runEnv env2 (unsuspendServer env r internal_id) = env2) ∧
    (∀ env2 env r internal_id,
       runEnv env2 (reinstallServer env r internal_id) = env2) ∧
    (∀ env2 env r internal_id,
       runEnv env2 (rebuildServer env r internal_id) = env2) ∧
    (∀ env2 env r internal_id,
       runEnv env2 (deleteServer env r internal_id) = env2) ∧
    (∀ env2 env r internal_id name user external_id description,
       runEnv env2 (updateServerDetails env r internal_id name user
         external_id description) = env2) ∧
    (∀ env2 env r internal_id allocation_id database_limit allocation_limit
        memory disk cpu swap io2 add_allocations remove_allocations
        oom_disabled,
       runEnv env2 (updateServerBuildConfiguration env r internal_id
         allocation_id database_limit allocation_limit memory disk cpu swap
         io2 add_allocations remove_allocations oom_disabled) = env2) ∧
    (∀ env2 host key r,
       runEnv env2 (setApiKey host key r) = ⟨cleanHost host, key⟩) ∧
    (∀ host key r, envWrites (setApiKey host key r) =
       [("ADMIN_HOST", cleanHost host), ("ADMIN_KEY", key)]) := by
  refine ⟨?_, ?_, ?_, ?_, ?_, ?_, ?_, ?_, ?_, ?_, ?_, ?_, ?_, ?_, ?_⟩
  · intro env2 env r; simp [getAllServers]
  · intro env2 env r id external; simp [getServerInformation]
  · intro env2 env r internal_id; simp [getAllDatabases]
  · intro env2 env r internal_id database_id; simp [getDatabase]
  · intro env2 env r internal_id database host remote; simp [createDatabase]
  · intro env2 env r na de us eg st di al so en me dk cp sw io2 aa db alc dep
      sk oo
    simp [createServer]
  · intro env2 env r internal_id; simp [suspendServer]
  · intro env2 env r internal_id; simp [unsuspendServer]
  · intro env2 env r internal_id; simp [reinstallServer]
  · intro env2 env r internal_id; simp [rebuildServer]
  · intro env2 env r internal_id; simp [deleteServer]
  · intro env2 env r internal_id name user external_id description
    simp [updateServerDetails]
  · intro env2 env r internal_id allocation_id database_limit allocation_limit
      memory disk cpu swap io2 add_allocations remove_allocations oom_disabled
    simp [updateServerBuildConfiguration]
  · intro env2 host key r; simp [setApiKey, runEnv]
  · intro host key r; simp [setApiKey, envWrites]

/-- C6: the POST payload of `createServer` is built from the arguments
exactly as documented, with the nine optional arguments defaulted when
omitted; the request goes to the servers path of the stored host with
the payload as its body. -/
theorem claim_C6_payload :
    (∀ (env : Env) (r : AxiosResult)
       (na de us eg st di al so en me dk cp sw io2 aa db alc dep sk oo : JSVal),
       createServer_failMsgs na us eg st di al so en me dk cp sw io2 aa db
         dep sk oo = [] →
       httpCalls (createServer env r na de us eg st di al so en me dk cp sw
           io2 aa db alc dep sk oo) =
         [⟨.post, .str (env.ADMIN_HOST ++ "/api/application/servers"),
           ⟨"Bearer " ++ env.ADMIN_KEY, "application/json",
            "Application/vnd.pterodactyl.v1+json"⟩,
           some (.obj [("name", na), ("description", de), ("startup", st),
             ("environment", en), ("deploy", withDefault dep deployDefault),
             ("start_on_completion", so), ("user", us), ("egg", eg),
             ("limits", .obj [("memory", me),
               ("swap", withDefault sw (.num (-1))), ("disk", dk),
               ("io", withDefault io2 (.num 500)),
               ("cpu", withDefault cp (.num 0))]),
             ("feature_limits", .obj [("databases", withDefault db (.num 0)),
               ("allocations", withDefault alc (.num 0))]),
             ("docker_image", di),
             ("allocation", .obj [("default", al),
               ("additional", withDefault aa (.arr []))]),
             ("skip_scripts", withDefault sk (.bool false)),
             ("oom_disabled", withDefault oo (.bool true))]),
           some 3, some true, none⟩]) ∧
    (∀ (env : Env) (r : AxiosResult)
       (na de us eg st di al so en me dk : JSVal),
       createServer_failMsgs na us eg st di al so en me dk .undefined .undefined
         .undefined .undefined .undefined .undefined .undefined .undefined = [] →
       httpCalls (createServer env r na de us eg st di al so en me dk .undefined
           .undefined .undefined .undefined .undefined .undefined .undefined .undefined .undefined) =
         [⟨.post, .str (env.ADMIN_HOST ++ "/api/application/servers"),
           ⟨"Bearer " ++ env.ADMIN_KEY, "application/json",
            "Application/vnd.pterodactyl.v1+json"⟩,
           some (.obj [("name", na), ("description", de), ("startup", st),
             ("environment", en),
             ("deploy", .obj [("locations", .arr [.num 1]),
               ("dedicated_ip", .bool false), ("port_range", .arr [])]),
             ("start_on_completion", so), ("user", us), ("egg", eg),
             ("limits", .obj [("memory", me), ("swap", .num (-1)),
               ("disk", dk), ("io", .num 500), ("cpu", .num 0)]),
             ("feature_limits", .obj [("databases", .num 0),
               ("allocations", .num 0)]),
             ("docker_image", di),
             ("allocation", .obj [("default", al), ("additional", .arr [])]),
             ("skip_scripts", .bool false), ("oom_disabled", .bool true)]),
           some 3, some true, none⟩]) := by
  constructor
  · intro env r na de us eg st di al so en me dk cp sw io2 aa db alc dep sk
      oo _
    simp [createServer, admin.postRequest, jsAdd, jsToString, jsPrimToString]
  · intro env r na de us eg st di al so en me dk _
    simp [createServer, admin.postRequest, jsAdd, jsToString, jsPrimToString,
      withDefault, deployDefault]

/-- Witness for C6: a concrete valid call with all optional arguments
omitted. -/
theorem claim_C6_witness :
    httpCalls (createServer ⟨"http://h", "k"⟩ (.ok ⟨200, .null⟩)
        (.str "srv") (.str "desc") (.num 1) (.num 2) (.str "cmd")
        (.str "img") (.num 3) (.bool true) (.obj []) (.num 64) (.num 10)
        .undefined .undefined .undefined .undefined .undefined .undefined .undefined .undefined .undefined) =
      [⟨.post, .str "http://h/api/application/servers",
        ⟨"Bearer k", "application/json",
         "Application/vnd.pterodactyl.v1+json"⟩,
        some (.obj [("name", .str "srv"), ("description", .str "desc"),
          ("startup", .str "cmd"), ("environment", .obj []),
          ("deploy", .obj [("locations", .arr [.num 1]),
            ("dedicated_ip", .bool false), ("port_range", .arr [])]),
          ("start_on_completion", .bool true), ("user", .num 1),
          ("egg", .num 2),
          ("limits", .obj [("memory", .num 64), ("swap", .num (-1)),
            ("disk", .num 10), ("io", .num 500), ("cpu", .num 0)]),
          ("feature_limits", .obj [("databases", .num 0),
            ("allocations", .num 0)]),
          ("docker_image", .str "img"),
          ("allocation", .obj [("default", .num 3),
            ("additional", .arr [])]),
          ("skip_scripts", .bool false), ("oom_disabled", .bool true)]),
        some 3, some true, none⟩] :=
  claim_C6_payload.2 ⟨"http://h", "k"⟩ (.ok ⟨200, .null⟩) (.str "srv")
    (.str "desc") (.num 1) (.num 2) (.str "cmd") (.str "img") (.num 3)
    (.bool true) (.obj []) (.num 64) (.num 10) rfl

/-- C7: `getAllServers` unwraps a successful response by mapping every
element of `response.data.data`, in order, to its `attributes` field
and pairing the result with `response.data.meta.pagination`; any
rejection of the request helper promise is re-rejected unchanged. -/
theorem claim_C7_getAllServers_unwrap :
    (∀ (env : Env) (resp : Response) (xs : List JSVal) (meta pag : JSVal),
       resp.status ≠ 404 → resp.status ≠ 403 → resp.status ≠ 500 →
       isNullOrUndefined resp.data = false →
       jsField resp.data "data" = .arr xs →
       xs.all (fun el => !isNullOrUndefined el) = true →
       jsField resp.data "meta" = meta →
       isNullOrUndefined meta = false →
       jsField meta "pagination" = pag →
       firstSettle (getAllServers env (.ok resp)) =
         some (.resolved (.obj
           [("servers", .arr (xs.map (fun el => jsField el "attributes"))),
            ("pagination", pag)]))) ∧
    (∀ (env : Env) (r : AxiosResult) (e : JSVal),
       (admin.getRequest env (.str "/api/application/servers") r).2 =
         .rejected e →
       firstSettle (getAllServers env r) = some (.rejected e)) := by
  constructor
  · intro env resp xs meta pag h404 h403 h500 hd hdd hall hmeta hmn hpag
    simp [getAllServers, firstSettle, admin.getRequest, h404, h403, h500,
      jsGetOpt_obj, jsGetOpt_of_not_null _ hd, jsGetOpt_of_not_null _ hmn,
      jsField_cons_hit, hdd, hmeta, hpag, jsMapGet_arr _ _ hall]
  · intro env r e he
    simp [getAllServers, firstSettle, he]

/-- Witness for C7: a concrete response with two servers, and a
concrete 404 rejection passed through unchanged. -/
theorem claim_C7_witness :
    firstSettle (getAllServers ⟨"http://h", "k"⟩ (.ok ⟨200,
        .obj [("data", .arr [.obj [("attributes", .str "a")],
                             .obj [("attributes", .str "b")]]),
              ("meta", .obj [("pagination", .num 7)])]⟩)) =
      some (.resolved (.obj [("servers", .arr [.str "a", .str "b"]),
        ("pagination", .num 7)])) ∧
    firstSettle (getAllServers ⟨"http://h", "k"⟩ (.ok ⟨404, .null⟩)) =
      some (.rejected
        (.str "404 Not found, check your host is correct")) :=
  ⟨claim_C7_getAllServers_unwrap.1 ⟨"http://h", "k"⟩
     ⟨200, .obj [("data", .arr [.obj [("attributes", .str "a")],
                                .obj [("attributes", .str "b")]]),
                 ("meta", .obj [("pagination", .num 7)])]⟩
     [.obj [("attributes", .str "a")], .obj [("attributes", .str "b")]]
     (.obj [("pagination", .num 7)]) (.num 7)
     (by decide) (by decide) (by decide) rfl rfl rfl rfl rfl rfl,
   claim_C7_getAllServers_unwrap.2 ⟨"http://h", "k"⟩ (.ok ⟨404, .null⟩)
     (.str "404 Not found, check your host is correct") rfl⟩

@[simp] theorem effsBeforeHttp_ite_log_append (c : Prop) [Decidable c]
    (m : String) (rest : List Eff) :
    effsBeforeHttp ((if c then [Eff.log m] else []) ++ rest) =
      (if c then [Eff.log m] else []) ++ effsBeforeHttp rest := by
  split <;> simp

/-- C8: a failing validation check does not suppress the network call:
whenever a validation check of an endpoint function fails, the promise
settles rejected with the (first) validation message, that rejection
happens before the HTTP call in the effect order, and the single HTTP
request through the request helper is still issued. -/
theorem claim_C8_reject_still_calls :
    (∀ env r internal_id m,
       (getAllDatabases_failMsgs internal_id).head? = some m →
       firstSettle (effsBeforeHttp (getAllDatabases env r internal_id)) =
         some (.rejected (.str m)) ∧
       firstSettle (getAllDatabases env r internal_id) =
         some (.rejected (.str m)) ∧
       (httpCalls (getAllDatabases env r internal_id)).length = 1) ∧
    (∀ env r internal_id database_id m,
       (getDatabase_failMsgs internal_id database_id).head? = some m →
       firstSettle (effsBeforeHttp (getDatabase env r internal_id
         database_id)) = some (.rejected (.str m)) ∧
       firstSettle (getDatabase env r internal_id database_id) =
         some (.rejected (.str m)) ∧
       (httpCalls (getDatabase env r internal_id database_id)).length = 1) ∧
    (∀ env r internal_id database host remote m,
       (createDatabase_failMsgs internal_id database host remote).head? =
         some m →
       firstSettle (effsBeforeHttp (createDatabase env r internal_id database
         host remote)) = some (.rejected (.str m)) ∧
       firstSettle (createDatabase env r internal_id database host remote) =
         some (.rejected (.str m)) ∧
       (httpCalls (createDatabase env r internal_id database host
         remote)).length = 1) ∧
    (∀ env r na de us eg st di al so en me dk cp sw io2 aa db alc dep sk oo
        msg,
       (createServer_failMsgs na us eg st di al so en me dk cp sw io2 aa db
          dep sk oo).head? = some msg →
       firstSettle (effsBeforeHttp (createServer env r na de us eg st di al
         so en me dk cp sw io2 aa db alc dep sk oo)) =
         some (.rejected (.str msg)) ∧
       firstSettle (createServer env r na de us eg st di al so en me dk cp sw
         io2 aa db alc dep sk oo) = some (.rejected (.str msg)) ∧
       (httpCalls (createServer env r na de us eg st di al so en me dk cp sw
         io2 aa db alc dep sk oo)).length = 1) ∧
    (∀ env r internal_id m,
       (suspendServer_failMsgs internal_id).head? = some m →
       firstSettle (effsBeforeHttp (suspendServer env r internal_id)) =
         some (.rejected (.str m)) ∧
       firstSettle (suspendServer env r internal_id) =
         some (.rejected (.str m)) ∧
       (httpCalls (suspendServer env r internal_id)).length = 1) ∧
    (∀ env r internal_id m,
       (unsuspendServer_failMsgs internal_id).head? = some m →
       firstSettle (effsBeforeHttp (unsuspendServer env r internal_id)) =
         some (.rejected (.str m)) ∧
       firstSettle (unsuspendServer env r internal_id) =
         some (.rejected (.str m)) ∧
       (httpCalls (unsuspendServer env r internal_id)).length = 1) ∧
    (∀ env r internal_id m,
       (reinstallServer_failMsgs internal_id).head? = some m →
       firstSettle (effsBeforeHttp (reinstallServer env r internal_id)) =
         some (.rejected (.str m)) ∧
       firstSettle (reinstallServer env r internal_id) =
         some (.rejected (.str m)) ∧
       (httpCalls (reinstallServer env r internal_id)).length = 1) ∧
    (∀ env r internal_id m,
       (rebuildServer_failMsgs internal_id).head? = some m →
       firstSettle (effsBeforeHttp (rebuildServer env r internal_id)) =
         some (.rejected (.str m)) ∧
       firstSettle (rebuildServer env r internal_id) =
         some (.rejected (.str m)) ∧
       (httpCalls (rebuildServer env r internal_id)).length = 1) ∧
    (∀ env r internal_id m,
       (deleteServer_failMsgs internal_id).head? = some m →
       firstSettle (effsBeforeHttp (deleteServer env r internal_id)) =
         some (.rejected (.str m)) ∧
       firstSettle (deleteServer env r internal_id) =
         some (.rejected (.str m)) ∧
       (httpCalls (deleteServer env r internal_id)).length = 1) ∧
    (∀ env r internal_id name user external_id description m,
       (updateServerDetails_failMsgs internal_id name user).head? = some m →
       firstSettle (effsBeforeHttp (updateServerDetails env r internal_id
         name user external_id description)) = some (.rejected (.str m)) ∧
       firstSettle (updateServerDetails env r internal_id name user
         external_id description) = some (.rejected (.str m)) ∧
       (httpCalls (updateServerDetails env r internal_id name user
         external_id description)).length = 1) ∧
    (∀ env r internal_id allocation_id database_limit allocation_limit memory
        disk cpu swap io2 add_allocations remove_allocations oom_disabled m,
       (updateServerBuildConfiguration_failMsgs internal_id
          allocation_id).head? = some m →
       firstSettle (effsBeforeHttp (updateServerBuildConfiguration env r
         internal_id allocation_id database_limit allocation_limit memory
         disk cpu swap io2 add_allocations remove_allocations
         oom_disabled)) = some (.rejected (.str m)) ∧
       firstSettle (updateServerBuildConfiguration env r internal_id
         allocation_id database_limit allocation_limit memory disk cpu swap
         io2 add_allocations remove_allocations oom_disabled) =
         some (.rejected (.str m)) ∧
       (httpCalls (updateServerBuildConfiguration env r internal_id
         allocation_id database_limit allocation_limit memory disk cpu swap
         io2 add_allocations remove_allocations oom_disabled)).length = 1) := by
  refine ⟨?_, ?_, ?_, ?_, ?_, ?_, ?_, ?_, ?_, ?_, ?_⟩
  · intro env r internal_id m hm
    simp only [getAllDatabases_failMsgs] at hm
    repeat' split at hm
    all_goals simp_all [getAllDatabases, firstSettle]
  · intro env r internal_id database_id m hm
    simp only [getDatabase_failMsgs] at hm
    repeat' split at hm
    all_goals simp_all [getDatabase, firstSettle]
  · intro env r internal_id database host remote m hm
    simp only [createDatabase_failMsgs] at hm
    repeat' split at hm
    all_goals simp_all [createDatabase, firstSettle]
  · intro env r na de us eg st di al so en me dk cp sw io2 aa db alc dep sk
      oo msg hm
    simp only [createServer_failMsgs] at hm
    by_cases h1 : (typeof na != "string") = true
    · simp [h1] at hm; simp [createServer, firstSettle, h1, hm]
    by_cases h2 : (typeof us != "number") = true
    · simp [h1, h2] at hm; simp [createServer, firstSettle, h1, h2, hm]
    by_cases h3 : (typeof eg != "number") = true
    · simp [h1, h2, h3] at hm; simp [createServer, firstSettle, h1, h2, h3, hm]
    by_cases h4 : (typeof st != "string") = true
    · simp [h1, h2, h3, h4] at hm
      simp [createServer, firstSettle, h1, h2, h3, h4, hm]
    by_cases h5 : (typeof me != "number") = true
    · simp [h1, h2, h3, h4, h5] at hm
      simp [createServer, firstSettle, h1, h2, h3, h4, h5, hm]
    by_cases h6 : (typeof dk != "number") = true
    · simp [h1, h2, h3, h4, h5, h6] at hm
      simp [createServer, firstSettle, h1, h2, h3, h4, h5, h6, hm]
    by_cases h7 : (typeof di != "string") = true
    · simp [h1, h2, h3, h4, h5, h6, h7] at hm
      simp [createServer, firstSettle, h1, h2, h3, h4, h5, h6, h7, hm]
    by_cases h8 : (typeof al != "number") = true
    · simp [h1, h2, h3, h4, h5, h6, h7, h8] at hm
      simp [createServer, firstSettle, h1, h2, h3, h4, h5, h6, h7, h8, hm]
    by_cases h9 : (typeof so != "boolean") = true
    · simp [h1, h2, h3, h4, h5, h6, h7, h8, h9] at hm
      simp [createServer, firstSettle, h1, h2, h3, h4, h5, h6, h7, h8, h9, hm]
    by_cases h10 : (!jsIsArray (withDefault aa (.arr []))) = true
    · simp [h1, h2, h3, h4, h5, h6, h7, h8, h9, h10] at hm
      simp [createServer, firstSettle, h1, h2, h3, h4, h5, h6, h7, h8, h9,
        h10, hm]
    by_cases h11 : (typeof (withDefault cp (.num 0)) != "number") = true
    · simp [h1, h2, h3, h4, h5, h6, h7, h8, h9, h10, h11] at hm
      simp [createServer, firstSettle, h1, h2, h3, h4, h5, h6, h7, h8, h9,
        h10, h11, hm]
    by_cases h12 : (typeof (withDefault sw (.num (-1))) != "number") = true
    · simp [h1, h2, h3, h4, h5, h6, h7, h8, h9, h10, h11, h12] at hm
      simp [createServer, firstSettle, h1, h2, h3, h4, h5, h6, h7, h8, h9,
        h10, h11, h12, hm]
    by_cases h13 : (typeof (withDefault io2 (.num 500)) != "number") = true
    · simp [h1, h2, h3, h4, h5, h6, h7, h8, h9, h10, h11, h12, h13] at hm
      simp [createServer, firstSettle, h1, h2, h3, h4, h5, h6, h7, h8, h9,
        h10, h11, h12, h13, hm]
    by_cases h14 : (typeof en != "object") = true
    · simp [h1, h2, h3, h4, h5, h6, h7, h8, h9, h10, h11, h12, h13, h14] at hm
      simp [createServer, firstSettle, h1, h2, h3, h4, h5, h6, h7, h8, h9,
        h10, h11, h12, h13, h14, hm]
    by_cases h15 : (typeof (withDefault db (.num 0)) != "number") = true
    · simp [h1, h2, h3, h4, h5, h6, h7, h8, h9, h10, h11, h12, h13, h14,
        h15] at hm
      simp [createServer, firstSettle, h1, h2, h3, h4, h5, h6, h7, h8, h9,
        h10, h11, h12, h13, h14, h15, hm]
    by_cases h16 : (typeof (withDefault dep deployDefault) != "object") = true
    · simp [h1, h2, h3, h4, h5, h6, h7, h8, h9, h10, h11, h12, h13, h14, h15,
        h16] at hm
      simp [createServer, firstSettle, h1, h2, h3, h4, h5, h6, h7, h8, h9,
        h10, h11, h12, h13, h14, h15, h16, hm]
    by_cases h17 : (typeof (withDefault sk (.bool false)) != "boolean") = true
    · simp [h1, h2, h3, h4, h5, h6, h7, h8, h9, h10, h11, h12, h13, h14, h15,
        h16, h17] at hm
      simp [createServer, firstSettle, h1, h2, h3, h4, h5, h6, h7, h8, h9,
        h10, h11, h12, h13, h14, h15, h16, h17, hm]
    by_cases h18 : (typeof (withDefault oo (.bool true)) != "boolean") = true
    · simp [h1, h2, h3, h4, h5, h6, h7, h8, h9, h10, h11, h12, h13, h14, h15,
        h16, h17, h18] at hm
      simp [createServer, firstSettle, h1, h2, h3, h4, h5, h6, h7, h8, h9,
        h10, h11, h12, h13, h14, h15, h16, h17, h18, hm]
    · simp [h1, h2, h3, h4, h5, h6, h7, h8, h9, h10, h11, h12, h13, h14, h15,
        h16, h17, h18] at hm
  · intro env r internal_id m hm
    simp only [suspendServer_failMsgs] at hm
    repeat' split at hm
    all_goals simp_all [suspendServer, firstSettle]
  · intro env r internal_id m hm
    simp only [unsuspendServer_failMsgs] at hm
    repeat' split at hm
    all_goals simp_all [unsuspendServer, firstSettle]
  · intro env r internal_id m hm
    simp only [reinstallServer_failMsgs] at hm
    repeat' split at hm
    all_goals simp_all [reinstallServer, firstSettle]
  · intro env r internal_id m hm
    simp only [rebuildServer_failMsgs] at hm
    repeat' split at hm
    all_goals simp_all [rebuildServer, firstSettle]
  · intro env r internal_id m hm
    simp only [deleteServer_failMsgs] at hm
    repeat' split at hm
    all_goals simp_all [deleteServer, firstSettle]
  · intro env r internal_id name user external_id description m hm
    simp only [updateServerDetails_failMsgs] at hm
    repeat' split at hm
    all_goals simp_all [updateServerDetails, firstSettle]
  · intro env r internal_id allocation_id database_limit allocation_limit
      memory disk cpu swap io2 add_allocations remove_allocations
      oom_disabled m hm
    simp only [updateServerBuildConfiguration_failMsgs] at hm
    repeat' split at hm
    all_goals simp_all [updateServerBuildConfiguration, firstSettle]

/-- Witness for C8: `getAllDatabases` with a non-numeric internal id
rejects first and still issues its single request. -/
theorem claim_C8_witness :
    firstSettle (effsBeforeHttp (getAllDatabases ⟨"http://h", "k"⟩
        (.ok ⟨200, .null⟩) (.str "abc"))) =
      some (.rejected (.str "Internal ID must be a number")) ∧
    firstSettle (getAllDatabases ⟨"http://h", "k"⟩ (.ok ⟨200, .null⟩)
        (.str "abc")) =
      some (.rejected (.str "Internal ID must be a number")) ∧
    (httpCalls (getAllDatabases ⟨"http://h", "k"⟩ (.ok ⟨200, .null⟩)
        (.str "abc"))).length = 1 :=
  claim_C8_reject_still_calls.1 ⟨"http://h", "k"⟩ (.ok ⟨200, .null⟩)
    (.str "abc") "Internal ID must be a number" (by decide)

/-- C9: `setApiKey` never rejects: it always resolves with an object of
the shape loggedIn/message; the then-branch testing the whole response
object against the number 404 can never fire, so every completed probe
resolves as successfully authenticated, and every axios error resolves
with loggedIn false and an explanatory message. -/
theorem claim_C9_setApiKey_always_resolves (host key : String)
    (r : AxiosResult) :
    (∃ b msg, settlesOf (setApiKey host key r) =
       [.resolved (.obj [("loggedIn", .bool b), ("message", .str msg)])]) ∧
    (∀ res, responseStrictEq404 res = false) ∧
    (∀ resp, r = .ok resp → settlesOf (setApiKey host key r) =
       [.resolved (.obj [("loggedIn", .bool true),
         ("message", .str "Successfully authenticated")])]) ∧
    (∀ e, r = .error e → settlesOf (setApiKey host key r) =
       [.resolved (.obj [("loggedIn", .bool false),
         ("message", .str (if e.status = some 403 then
            "403 Forbidden, please check your API key is valid"
          else e.message))])]) := by
  refine ⟨?_, fun _ => rfl, ?_, ?_⟩
  · match r with
    | .ok resp =>
      exact ⟨true, "Successfully authenticated",
        by simp [setApiKey, responseStrictEq404]⟩
    | .error e =>
      by_cases h : e.status = some 403
      · exact ⟨false, "403 Forbidden, please check your API key is valid",
          by simp [setApiKey, h]⟩
      · exact ⟨false, e.message, by simp [setApiKey, h]⟩
  · rintro resp rfl
    simp [setApiKey, responseStrictEq404]
  · rintro e rfl
    by_cases h : e.status = some 403 <;> simp [setApiKey, h]

/-- Witness for C9: a completed probe resolves as authenticated, a 403
error and a network error both resolve with loggedIn false. -/
theorem claim_C9_witness :
    settlesOf (setApiKey "http://h" "k" (.ok ⟨404, .null⟩)) =
      [.resolved (.obj [("loggedIn", .bool true),
        ("message", .str "Successfully authenticated")])] ∧
    settlesOf (setApiKey "http://h" "k" (.error ⟨"req failed", some 403⟩)) =
      [.resolved (.obj [("loggedIn", .bool false),
        ("message", .str "403 Forbidden, please check your API key is valid")])] ∧
    settlesOf (setApiKey "http://h" "k" (.error ⟨"getaddrinfo ENOTFOUND", none⟩)) =
      [.resolved (.obj [("loggedIn", .bool false),
        ("message", .str "getaddrinfo ENOTFOUND")])] :=
  ⟨(claim_C9_setApiKey_always_resolves "http://h" "k"
      (.ok ⟨404, .null⟩)).2.2.1 ⟨404, .null⟩ rfl,
   by
     have := (claim_C9_setApiKey_always_resolves "http://h" "k"
       (.error ⟨"req failed", some 403⟩)).2.2.2 ⟨"req failed", some 403⟩ rfl
     simpa using this,
   by
     have := (claim_C9_setApiKey_always_resolves "http://h" "k"
       (.error ⟨"getaddrinfo ENOTFOUND", none⟩)).2.2.2
       ⟨"getaddrinfo ENOTFOUND", none⟩ rfl
     simpa using this⟩

/-- C10: `setApiKey` stores the result of `cleanHost` as the admin
host, where `cleanHost` removes exactly one trailing slash when one is
present and leaves every other string unchanged, while the probe
request itself is issued against the original uncleaned host string. -/
theorem claim_C10_cleanHost_storage (host key : String) (r : AxiosResult) :
    envWrites (setApiKey host key r) =
      [("ADMIN_HOST", cleanHost host), ("ADMIN_KEY", key)] ∧
    (host.data.getLast? = some '/' → cleanHost host ++ "/" = host) ∧
    (host.data.getLast? ≠ some '/' → cleanHost host = host) ∧
    httpCalls (setApiKey host key r) =
      [⟨.get, .str (host ++ "/api/application/users"),
        ⟨"Bearer " ++ key, "application/json",
         "Application/vnd.pterodactyl.v1+json"⟩,
        none, some 5, none, some "utf8"⟩] := by
  refine ⟨by simp [setApiKey, envWrites], ?_, ?_, by simp [setApiKey, httpCalls]⟩
  · intro h
    cases host with
    | mk l =>
      have hl := strip_last_slash l h
      calc (⟨stripTrailingSlash l⟩ : String) ++ "/"
          = ⟨stripTrailingSlash l ++ ['/']⟩ := rfl
        _ = ⟨l⟩ := by rw [hl]
  · intro h
    cases host with
    | mk l => exact congrArg String.mk (strip_no_slash l h)

/-- Witness for C10: a host with a trailing slash has it removed for
storage, a host without one is stored unchanged, and both probes use
the original host string. -/
theorem claim_C10_witness :
    envWrites (setApiKey "http://x.com/" "k" (.ok ⟨200, .null⟩)) =
      [("ADMIN_HOST", cleanHost "http://x.com/"), ("ADMIN_KEY", "k")] ∧
    cleanHost "http://x.com/" ++ "/" = "http://x.com/" ∧
    cleanHost "http://y.com" = "http://y.com" ∧
    httpCalls (setApiKey "http://x.com/" "k" (.ok ⟨200, .null⟩)) =
      [⟨.get, .str ("http://x.com/" ++ "/api/application/users"),
        ⟨"Bearer " ++ "k", "application/json",
         "Application/vnd.pterodactyl.v1+json"⟩,
        none, some 5, none, some "utf8"⟩] :=
  ⟨(claim_C10_cleanHost_storage "http://x.com/" "k" (.ok ⟨200, .null⟩)).1,
   (claim_C10_cleanHost_storage "http://x.com/" "k" (.ok ⟨200, .null⟩)).2.1
     (by decide),
   (claim_C10_cleanHost_storage "http://y.com" "k" (.ok ⟨200, .null⟩)).2.2.1
     (by decide),
   (claim_C10_cleanHost_storage "http://x.com/" "k" (.ok ⟨200, .null⟩)).2.2.2⟩
